import Mathlib

/-!
# Verification of the agent-chatroom flow-control and context-selection core

Shallow embedding of the flow-control / context-selection subsystem of the
`agent-chatroom` repository:

* `estimateTokens`, `traceReplyChain`, `calculateImportance`, `compressContext`
  (connector `context.ts`);
* `GlobalRateLimiter.checkRateLimit` / `checkTokenBucket` / `consumeToken`
  (server `security.ts`);
* `MentionIntelligence.shouldRespond` (connector `mention-intel.ts`);
* `ProactiveEngine.checkEngagement` / `getCurrentCooldown` (connector
  `proactive-engine.ts`);
* the `ReplyStrategy` backoff state (modelled from the design document, the
  implementation file `strategy.ts` being absent from the snapshot).

Timestamps are epoch milliseconds modelled as `Int`; JavaScript numbers that
hold fractional token counts are modelled as `ℚ`.  Wall-clock reads
(`Date.now()`) become explicit `now` parameters.
-/

namespace Chatroom

/-- A chat message (connector `chat-client.ts` `Message` interface). -/
structure Message where
  id : String
  sender : String
  senderType : String
  content : String
  mentions : List String
  replyTo : Option String := none
  timestamp : Int
deriving DecidableEq, Repr

/-! ## TokenEstimator (`context.ts` `estimateTokens`) -/

/-- The CJK code-point ranges tested by `estimateTokens`. -/
def isCjkChar (c : Char) : Bool :=
  let code := c.toNat
  (0x4e00 ≤ code && code ≤ 0x9fff) ||
  (0x3400 ≤ code && code ≤ 0x4dbf) ||
  (0x3000 ≤ code && code ≤ 0x303f) ||
  (0xff00 ≤ code && code ≤ 0xffef)

/-- Number of CJK characters of a string. -/
def cjkCount (text : String) : Nat :=
  (text.data.filter isCjkChar).length

/-- Number of non-CJK characters of a string. -/
def nonCjkCount (text : String) : Nat :=
  (text.data.filter (fun c => !isCjkChar c)).length

/-- `estimateTokens` from `context.ts`: `Math.ceil(cjk / 2 + nonCjk / 4)`.
`cjk / 2 + nonCjk / 4 = (2 * cjk + nonCjk) / 4`, so the ceiling is the
rounded-up natural division by 4. -/
def estimateTokens (text : String) : Nat :=
  (2 * cjkCount text + nonCjkCount text + 3) / 4

/-! ## ReplyChainResolver (`context.ts` `traceReplyChain`) -/

/-- `messages.find(m => m.id === currentId)`. -/
def findMsg (messages : List Message) (msgId : String) : Option Message :=
  messages.find? (fun m => m.id == msgId)

/-- The walk of `traceReplyChain`, in visiting order (newest first).  `fuel`
is the remaining depth budget `maxDepth - depth`; `visited` the visited-id
set. -/
def traceAux (messages : List Message) : Nat → Option String → List String → List Message
  | 0, _, _ => []
  | _ + 1, none, _ => []
  | fuel + 1, some currentId, visited =>
    if currentId ∈ visited then []
    else
      match findMsg messages currentId with
      | none => []
      | some msg => msg :: traceAux messages fuel msg.replyTo (currentId :: visited)

/-- `traceReplyChain` from `context.ts`: walk parent references from
`targetId` with cycle detection and a depth cap, returning the chain oldest
first. -/
def traceReplyChain (targetId : String) (messages : List Message)
    (maxDepth : Nat := 5) : List Message :=
  (traceAux messages maxDepth (some targetId) []).reverse

/-! ### Lemmas about `traceAux` -/

theorem traceAux_length_le (messages : List Message) :
    ∀ (fuel : Nat) (cur : Option String) (visited : List String),
      (traceAux messages fuel cur visited).length ≤ fuel := by
  intro fuel
  induction fuel with
  | zero => intro cur visited; simp [traceAux]
  | succ n ih =>
    intro cur visited
    match cur with
    | none => simp [traceAux]
    | some currentId =>
      simp only [traceAux]
      split
      · simp
      · split
        · simp
        · simpa using Nat.succ_le_succ (ih _ _)

theorem traceAux_head_id (messages : List Message) (fuel : Nat)
    (cur : Option String) (visited : List String) (h : Message)
    (hh : (traceAux messages fuel cur visited).head? = some h) :
    cur = some h.id := by
  match fuel, cur with
  | 0, _ => simp [traceAux] at hh
  | _ + 1, none => simp [traceAux] at hh
  | fuel + 1, some currentId =>
    simp only [traceAux] at hh
    split at hh
    · simp at hh
    · split at hh
      · simp at hh
      · next msg hfind =>
        have hmsgid : msg.id = currentId := by
          have := List.find?_some hfind
          simpa using this
        simp only [List.head?_cons, Option.some.injEq] at hh
        rw [← hh, hmsgid]

theorem traceAux_chain (messages : List Message) :
    ∀ (fuel : Nat) (cur : Option String) (visited : List String),
      List.Chain' (fun a b => a.replyTo = some b.id)
        (traceAux messages fuel cur visited) := by
  intro fuel
  induction fuel with
  | zero => intro cur visited; simp [traceAux]
  | succ n ih =>
    intro cur visited
    match cur with
    | none => simp [traceAux]
    | some currentId =>
      simp only [traceAux]
      split
      · simp
      · split
        · simp
        · next msg hfind =>
          rw [List.chain'_cons']
          refine ⟨fun h hh => ?_, ih _ _⟩
          exact traceAux_head_id messages n msg.replyTo (currentId :: visited) h
            (Option.mem_def.mp hh)

theorem traceAux_ids_fresh (messages : List Message) :
    ∀ (fuel : Nat) (cur : Option String) (visited : List String),
      (∀ m ∈ traceAux messages fuel cur visited, m.id ∉ visited) ∧
      ((traceAux messages fuel cur visited).map Message.id).Nodup := by
  intro fuel
  induction fuel with
  | zero => intro cur visited; simp [traceAux]
  | succ n ih =>
    intro cur visited
    match cur with
    | none => simp [traceAux]
    | some currentId =>
      simp only [traceAux]
      split
      · simp
      · split
        · simp
        · next msg hfind =>
          have hid : msg.id = currentId := by
            have := List.find?_some hfind
            simpa using this
          obtain ⟨ihFresh, ihNodup⟩ := ih msg.replyTo (currentId :: visited)
          constructor
          · intro m hm
            rcases List.mem_cons.mp hm with rfl | hm
            · next hvis _ => rw [hid]; exact hvis
            · exact fun hv => ihFresh m hm (List.mem_cons_of_mem _ hv)
          · rw [List.map_cons, List.nodup_cons]
            refine ⟨fun hmem => ?_, ihNodup⟩
            obtain ⟨m, hm, hmid⟩ := List.mem_map.mp hmem
            exact ihFresh m hm (by rw [hmid, hid]; exact List.mem_cons_self _ _)

/-- **C6.** `traceReplyChain` always terminates with at most `maxDepth`
messages (also on cyclic reply graphs), never revisits a message id, returns
the chain oldest-first (each later message replies to the one before it), and
returns `[]` when the starting id is missing from the message list. -/
theorem claim_C6_traceReplyChain (messages : List Message) (targetId : String)
    (maxDepth : Nat) :
    (traceReplyChain targetId messages maxDepth).length ≤ maxDepth ∧
    ((traceReplyChain targetId messages maxDepth).map Message.id).Nodup ∧
    List.Chain' (fun a b => b.replyTo = some a.id)
      (traceReplyChain targetId messages maxDepth) ∧
    (findMsg messages targetId = none →
      traceReplyChain targetId messages maxDepth = []) := by
  refine ⟨?_, ?_, ?_, ?_⟩
  · simpa [traceReplyChain] using traceAux_length_le messages maxDepth (some targetId) []
  · rw [traceReplyChain, List.map_reverse, List.nodup_reverse]
    exact (traceAux_ids_fresh messages maxDepth (some targetId) []).2
  · rw [traceReplyChain, List.chain'_reverse]
    exact traceAux_chain messages maxDepth (some targetId) []
  · intro hmiss
    match maxDepth with
    | 0 => simp [traceReplyChain, traceAux]
    | d + 1 => simp [traceReplyChain, traceAux, hmiss]

/-- Two messages forming a reply cycle (`m1 → m2 → m1`), the spec's worked
example for cycle safety. -/
def cycMsg1 : Message :=
  { id := "m1", sender := "A", senderType := "agent", content := "x",
    mentions := [], replyTo := some "m2", timestamp := 1 }

def cycMsg2 : Message :=
  { id := "m2", sender := "B", senderType := "agent", content := "y",
    mentions := [], replyTo := some "m1", timestamp := 2 }

/-- Witness for C6: the missing-id case yields `[]`, and on the cyclic
two-message graph the walk stops within the depth bound. -/
theorem claim_C6_traceReplyChain_witness :
    traceReplyChain "x" [] 5 = [] ∧
    (traceReplyChain "m2" [cycMsg1, cycMsg2] 5).length ≤ 5 :=
  ⟨(claim_C6_traceReplyChain [] "x" 5).2.2.2 rfl,
   (claim_C6_traceReplyChain [cycMsg1, cycMsg2] "m2" 5).1⟩

/-! ## C9: token estimation -/

theorem natCeilDiv_four_eq_ceil (m : Nat) :
    (((m + 3) / 4 : Nat) : ℤ) = ⌈(m : ℚ) / 4⌉ := by
  have h1 : m ≤ 4 * ((m + 3) / 4) := by omega
  have h2 : 4 * ((m + 3) / 4) ≤ m + 3 := by omega
  have hq1 : (m : ℚ) ≤ 4 * (((m + 3) / 4 : Nat) : ℚ) := by exact_mod_cast h1
  have hq2 : 4 * (((m + 3) / 4 : Nat) : ℚ) ≤ (m : ℚ) + 3 := by exact_mod_cast h2
  rw [eq_comm, Int.ceil_eq_iff]
  have hcast : ((((m + 3) / 4 : Nat) : ℤ) : ℚ) = (((m + 3) / 4 : Nat) : ℚ) := by
    exact_mod_cast rfl
  rw [hcast]
  constructor
  · linarith
  · linarith

/-- **C9.** `estimateTokens s` is the ceiling of
`cjk-count / 2 + other-count / 4`, and the empty string costs `0`. -/
theorem claim_C9_estimateTokens (s : String) :
    (estimateTokens s : ℤ) = ⌈(cjkCount s : ℚ) / 2 + (nonCjkCount s : ℚ) / 4⌉ ∧
    estimateTokens "" = 0 := by
  constructor
  · have hsum : (cjkCount s : ℚ) / 2 + (nonCjkCount s : ℚ) / 4 =
        ((2 * cjkCount s + nonCjkCount s : Nat) : ℚ) / 4 := by
      push_cast
      ring
    rw [hsum, ← natCeilDiv_four_eq_ceil]
    rfl
  · rfl

/-! ## ReplyDecisionEngine (`mention-intel.ts` `MentionIntelligence`) -/

/-- `RespondDecision` from `mention-intel.ts`. -/
structure RespondDecision where
  respond : Bool
  reason : String
  replyTo : Option String := none
deriving DecidableEq, Repr

/-- A member entry visible to the decision engine (`context.ts` `MemberInfo`;
the source field `type` is renamed `memberType`, `type` being reserved). -/
structure MemberInfo where
  name : String
  memberType : String
  joinedAt : Int
  isNew : Bool
  messageCount : Nat
deriving DecidableEq, Repr

/-- `context.ts` `ConversationDynamics.ongoingThread`. -/
structure OngoingThread where
  participants : List String
  topic : String
deriving DecidableEq, Repr

/-- `context.ts` `ConversationDynamics`. -/
structure ConversationDynamics where
  activeSpeakers : List String
  dominantSpeaker : Option String := none
  ongoingThread : Option OngoingThread := none
  recentTopics : List String := []
deriving DecidableEq, Repr

/-- `context.ts` `RoomContext`. -/
structure RoomContext where
  myName : String
  isNewMember : Bool
  memberList : List MemberInfo
  conversationDynamics : ConversationDynamics
deriving DecidableEq, Repr

/-- `MentionIntelligence.getAgentReplyCount`: agent-authored direct replies
to `messageId`. -/
def getAgentReplyCount (messageId : String) (messages : List Message) : Nat :=
  (messages.filter
    (fun m => m.replyTo == some messageId && m.senderType == "agent")).length

/-- Steps 4–5 of `MentionIntelligence.shouldRespond` (new-member greeting,
then the general fall-through). -/
def shouldRespondTail (_agentName : String) (msg : Message)
    (context : RoomContext) (recentMessages : List Message) : RespondDecision :=
  match context.memberList.find? (fun m => m.name == msg.sender) with
  | some senderInfo =>
    if senderInfo.isNew &&
        (recentMessages.filter (fun m => m.sender == msg.sender)).length ≤ 1 then
      { respond := true, reason := "new_member_greeting", replyTo := some msg.id }
    else
      { respond := true, reason := "general" }
  | none => { respond := true, reason := "general" }

/-- `MentionIntelligence.shouldRespond`, evaluated in source order: direct
mention, reply saturation, ongoing thread, new-member greeting, general. -/
def shouldRespond (agentName : String) (msg : Message) (context : RoomContext)
    (recentMessages : List Message) : RespondDecision :=
  if msg.mentions.contains agentName then
    { respond := true, reason := "directly_mentioned", replyTo := some msg.id }
  else if 2 ≤ getAgentReplyCount msg.id recentMessages then
    { respond := false, reason := "reply_saturation" }
  else
    match context.conversationDynamics.ongoingThread with
    | some thread =>
      if !thread.participants.contains agentName then
        { respond := false, reason := "ongoing_thread" }
      else shouldRespondTail agentName msg context recentMessages
    | none => shouldRespondTail agentName msg context recentMessages

/-- **C7 (amended).** A trigger that mentions the agent always yields
`respond = true` with reason `directly_mentioned` and `replyTo` the trigger's
*id* — for every room context and every `recentMessages` list, so mention
priority overrides reply saturation. -/
theorem claim_C7_mention_overrides (agentName : String) (msg : Message)
    (context : RoomContext) (recentMessages : List Message)
    (h : msg.mentions.contains agentName) :
    shouldRespond agentName msg context recentMessages =
      { respond := true, reason := "directly_mentioned", replyTo := some msg.id } := by
  rw [shouldRespond, if_pos h]

/-- The spec's worked scenario: Alice mentions Bot. -/
def exTrigger : Message :=
  { id := "t1", sender := "Alice", senderType := "human",
    content := "@Bot hello", mentions := ["Bot"], timestamp := 100 }

/-- Two agent-authored direct replies to `exTrigger` (saturation count 2). -/
def exSaturated : List Message :=
  [{ id := "r1", sender := "AgentX", senderType := "agent", content := "a",
     mentions := [], replyTo := some "t1", timestamp := 110 },
   { id := "r2", sender := "AgentY", senderType := "agent", content := "b",
     mentions := [], replyTo := some "t1", timestamp := 120 }]

def exContext : RoomContext :=
  { myName := "Bot", isNewMember := false, memberList := [],
    conversationDynamics := { activeSpeakers := ["Alice"] } }

/-- Witness for C7: in the saturation-2 scenario the mention still wins. -/
theorem claim_C7_mention_overrides_witness :
    shouldRespond "Bot" exTrigger exContext exSaturated =
      { respond := true, reason := "directly_mentioned", replyTo := some "t1" } :=
  claim_C7_mention_overrides "Bot" exTrigger exContext exSaturated (by decide)

/-- Counterexample to C7 as stated: the decision's target field holds the
trigger's *id*, not the trigger's *sender*. -/
theorem claim_C7_counterexample :
    ¬ ((shouldRespond "Bot" exTrigger exContext exSaturated).respond = true ∧
       (shouldRespond "Bot" exTrigger exContext exSaturated).reason =
         "directly_mentioned" ∧
       (shouldRespond "Bot" exTrigger exContext exSaturated).replyTo =
         some exTrigger.sender) := by
  decide

/-! ## ProactiveScheduler (`proactive-engine.ts` `ProactiveEngine`) -/

/-- The `ProactiveConfig` fields the engagement-backoff logic reads
(`cooldown` default 300 000 ms, `maxDailyPerAgent` default 20). -/
structure ProactiveConfig where
  agentName : String
  cooldown : Int := 300000
  maxDailyPerAgent : Nat := 20
deriving DecidableEq, Repr

/-- Mutable state of `ProactiveEngine`. -/
structure ProactiveState where
  config : ProactiveConfig
  dailyCount : Nat := 0
  lastProactiveTime : Int := 0
  consecutiveNoReply : Nat := 0
deriving DecidableEq, Repr

/-- A message that counts as engagement after the last proactive speak:
later than `lastProactiveTime` and not authored by the agent itself. -/
def isEngagement (st : ProactiveState) (m : Message) : Bool :=
  st.lastProactiveTime < m.timestamp && m.sender != st.config.agentName

/-- `ProactiveEngine.checkEngagement`: a no-op before the first proactive
speak; otherwise increments `consecutiveNoReply` when no engagement message
is present and resets it to `0` when one is. -/
def checkEngagement (st : ProactiveState) (recentMessages : List Message) :
    ProactiveState :=
  if st.lastProactiveTime = 0 then st
  else if (recentMessages.filter (isEngagement st)).length = 0 then
    { st with consecutiveNoReply := st.consecutiveNoReply + 1 }
  else
    { st with consecutiveNoReply := 0 }

/-- `ProactiveEngine.getCurrentCooldown`: exponential engagement backoff
capped at 30 minutes. -/
def getCurrentCooldown (st : ProactiveState) : Int :=
  min (st.config.cooldown * 2 ^ st.consecutiveNoReply) (30 * 60 * 1000)

theorem checkEngagement_iterate (st : ProactiveState) (msgs : List Message)
    (hP : st.lastProactiveTime ≠ 0)
    (hNo : ∀ m ∈ msgs, ¬ isEngagement st m = true) :
    ∀ k : Nat,
      ((fun s => checkEngagement s msgs)^[k]
          { st with consecutiveNoReply := 0 }).config = st.config ∧
      ((fun s => checkEngagement s msgs)^[k]
          { st with consecutiveNoReply := 0 }).lastProactiveTime =
        st.lastProactiveTime ∧
      ((fun s => checkEngagement s msgs)^[k]
          { st with consecutiveNoReply := 0 }).consecutiveNoReply = k := by
  intro k
  induction k with
  | zero => exact ⟨rfl, rfl, rfl⟩
  | succ n ih =>
    obtain ⟨ihc, ihp, ihn⟩ := ih
    rw [Function.iterate_succ_apply']
    set s := (fun s => checkEngagement s msgs)^[n] { st with consecutiveNoReply := 0 }
    have hfilter : (msgs.filter (isEngagement s)).length = 0 := by
      rw [List.length_eq_zero, List.filter_eq_nil_iff]
      intro m hm
      have := hNo m hm
      simpa [isEngagement, ihp, ihc] using this
    rw [checkEngagement, if_neg (by rw [ihp]; exact hP), if_pos hfilter]
    exact ⟨ihc, ihp, by simp [ihn]⟩

/-- **C8.** After a proactive speak (`lastProactiveTime ≠ 0`): `k`
engagement checks that each observe no foreign message after the last
proactive speak drive the cooldown to `min(base · 2^k, 30 min)`; a check
that observes one resets the counter to `0`; one that observes none
increments it by `1`. -/
theorem claim_C8_engagement_backoff (st : ProactiveState) (msgs : List Message)
    (hP : st.lastProactiveTime ≠ 0) :
    ((∀ m ∈ msgs, ¬ isEngagement st m = true) →
      ∀ k : Nat,
        getCurrentCooldown
            ((fun s => checkEngagement s msgs)^[k]
              { st with consecutiveNoReply := 0 }) =
          min (st.config.cooldown * 2 ^ k) 1800000) ∧
    ((∃ m ∈ msgs, isEngagement st m = true) →
      (checkEngagement st msgs).consecutiveNoReply = 0) ∧
    ((∀ m ∈ msgs, ¬ isEngagement st m = true) →
      (checkEngagement st msgs).consecutiveNoReply =
        st.consecutiveNoReply + 1) := by
  refine ⟨fun hNo k => ?_, fun hYes => ?_, fun hNo => ?_⟩
  · obtain ⟨hc, _, hn⟩ := checkEngagement_iterate st msgs hP hNo k
    rw [getCurrentCooldown, hc, hn]
    norm_num
  · obtain ⟨m, hm, hEng⟩ := hYes
    have hfilter : (msgs.filter (isEngagement st)).length ≠ 0 := by
      simp only [ne_eq, List.length_eq_zero, List.filter_eq_nil_iff]
      push_neg
      exact ⟨m, hm, hEng⟩
    rw [checkEngagement, if_neg hP, if_neg hfilter]
  · have hfilter : (msgs.filter (isEngagement st)).length = 0 := by
      rw [List.length_eq_zero, List.filter_eq_nil_iff]
      exact hNo
    rw [checkEngagement, if_neg hP, if_pos hfilter]

/-- A proactive state that already spoke once (at t = 50). -/
def exProactive : ProactiveState :=
  { config := { agentName := "Bot" }, dailyCount := 1,
    lastProactiveTime := 50, consecutiveNoReply := 0 }

/-- A foreign message after the proactive speak. -/
def exEngagementMsg : Message :=
  { id := "e1", sender := "Alice", senderType := "human", content := "hi",
    mentions := [], timestamp := 60 }

/-- Witness for C8: two silent cycles double the cooldown twice
(300 000 → 1 200 000 ms); a single foreign reply resets the counter. -/
theorem claim_C8_engagement_backoff_witness :
    getCurrentCooldown
        ((fun s => checkEngagement s ([] : List Message))^[2]
          { exProactive with consecutiveNoReply := 0 }) = 1200000 ∧
    (checkEngagement exProactive [exEngagementMsg]).consecutiveNoReply = 0 := by
  constructor
  · have h := (claim_C8_engagement_backoff exProactive [] (by decide)).1
      (by intro m hm; cases hm) 2
    rw [h]
    decide
  · exact (claim_C8_engagement_backoff exProactive [exEngagementMsg]
      (by decide)).2.1 ⟨exEngagementMsg, List.mem_cons_self _ _, by decide⟩

/-! ## ContextCompressor (`context.ts` `compressContext`)

The `CompressOptions` defaults (`hybrid`, 2000 tokens, `''`) are resolved by
the caller; strategies, budget and agent name are explicit arguments, and
`Date.now()` (read by the hybrid strategy's five-minute mention pass) is the
explicit `now`.  JavaScript's stable `Array.prototype.sort` on a numeric key
is modelled by insertion sort on a total preorder, which is stable for the
same key.  The float scores 0.3/0.2/0.1 are the exact rationals 3/10 etc. -/

/-- Compression strategies of `CompressOptions.strategy`. -/
inductive Strategy
  | recent
  | important
  | hybrid
deriving DecidableEq, Repr

/-- `calculateImportance` from `context.ts`: base 0.3, +0.3 on self-mention,
+0.2 on a question mark (ASCII or fullwidth), +0.1 on a parent reference,
clamped to 1. -/
def calculateImportance (msg : Message) (agentName : String) : ℚ :=
  let s1 : ℚ := 3 / 10
  let s2 := if msg.mentions.contains agentName then s1 + 3 / 10 else s1
  let s3 := if msg.content.contains '?' || msg.content.contains '？' then
      s2 + 2 / 10
    else s2
  let s4 := if msg.replyTo.isSome then s3 + 1 / 10 else s3
  min 1 s4

/-- The chronological comparison key of the final `.sort`. -/
def byTimestamp (a b : Message) : Prop := a.timestamp ≤ b.timestamp

instance : DecidableRel byTimestamp :=
  fun a b => inferInstanceAs (Decidable (a.timestamp ≤ b.timestamp))

instance : IsTotal Message byTimestamp :=
  ⟨fun a b => le_total a.timestamp b.timestamp⟩

instance : IsTrans Message byTimestamp :=
  ⟨fun _ _ _ hab hbc => le_trans hab hbc⟩

/-- `.sort((a, b) => a.timestamp - b.timestamp)` — a stable sort by
timestamp. -/
def sortByTimestamp (l : List Message) : List Message :=
  List.insertionSort byTimestamp l

/-- The descending-score comparison of `.sort((a, b) => b.score - a.score)`
over `(msg, score, tokens)` entries. -/
def byScoreDesc (a b : Message × ℚ × Nat) : Prop := b.2.1 ≤ a.2.1

instance : DecidableRel byScoreDesc :=
  fun a b => inferInstanceAs (Decidable (b.2.1 ≤ a.2.1))

/-- The backward fill loop of `compressRecent`, on the reversed message
list: skip the trigger's id, stop (`break`) at the first entry that would
exceed the budget, keep the rest in scan order. -/
def recentPick (rev : List Message) (triggerId : String) (maxTokens : Nat)
    (tokenCount : Nat) : List Message :=
  match rev with
  | [] => []
  | m :: rest =>
    if m.id == triggerId then recentPick rest triggerId maxTokens tokenCount
    else if maxTokens < tokenCount + estimateTokens m.content then []
    else m :: recentPick rest triggerId maxTokens
      (tokenCount + estimateTokens m.content)

/-- `compressRecent`: the trigger first when it fits, then messages filled
backward from the newest via `unshift`, re-sorted chronologically. -/
def compressRecent (messages : List Message) (trigger : Message)
    (maxTokens : Nat) : List Message :=
  let triggerTokens := estimateTokens trigger.content
  let initSel := if triggerTokens ≤ maxTokens then [trigger] else []
  let initCount := if triggerTokens ≤ maxTokens then triggerTokens else 0
  let picked := recentPick messages.reverse trigger.id maxTokens initCount
  sortByTimestamp (picked.reverse ++ initSel)

/-- The scored candidate list of `compressImportant`, sorted by descending
importance (stable, so ties keep encounter order). -/
def importantScored (messages : List Message) (agentName : String) :
    List (Message × ℚ × Nat) :=
  List.insertionSort byScoreDesc
    (messages.map fun msg =>
      (msg, calculateImportance msg agentName, estimateTokens msg.content))

/-- The greedy loop of `compressImportant`: skip the trigger's id, skip
(`continue`) entries that would exceed the budget, accumulate the rest and
the running token count. -/
def importantGreedy (l : List (Message × ℚ × Nat)) (triggerId : String)
    (maxTokens : Nat) (tokenCount : Nat) : List Message × Nat :=
  match l with
  | [] => ([], tokenCount)
  | e :: rest =>
    if e.1.id == triggerId then importantGreedy rest triggerId maxTokens tokenCount
    else if maxTokens < tokenCount + e.2.2 then
      importantGreedy rest triggerId maxTokens tokenCount
    else
      ((importantGreedy rest triggerId maxTokens (tokenCount + e.2.2)).1.cons e.1,
       (importantGreedy rest triggerId maxTokens (tokenCount + e.2.2)).2)

/-- `compressImportant`: greedy by importance, then the trigger if it still
fits, re-sorted chronologically. -/
def compressImportant (messages : List Message) (trigger : Message)
    (maxTokens : Nat) (agentName : String) : List Message :=
  let greedyResult :=
    importantGreedy (importantScored messages agentName) trigger.id maxTokens 0
  let selected :=
    if greedyResult.2 + estimateTokens trigger.content ≤ maxTokens then
      greedyResult.1 ++ [trigger]
    else greedyResult.1
  sortByTimestamp selected

/-- `Set.add`, with the set kept in insertion order. -/
def addToSet (acc : List Message) (m : Message) : List Message :=
  if m ∈ acc then acc else acc ++ [m]

/-- One pass of `compressHybrid`: add each message whose tokens still fit
the budget to the set and charge its tokens. -/
def hybridFill (maxTokens : Nat) : List Message → List Message → Nat →
    List Message × Nat
  | [], acc, tokenCount => (acc, tokenCount)
  | m :: rest, acc, tokenCount =>
    if tokenCount + estimateTokens m.content ≤ maxTokens then
      hybridFill maxTokens rest (addToSet acc m)
        (tokenCount + estimateTokens m.content)
    else hybridFill maxTokens rest acc tokenCount

/-- `compressHybrid`: P1 the trigger's reply chain, P2 recent mentions of
the agent, P3 remaining candidates by descending importance; the final set
is sorted chronologically. -/
def compressHybrid (messages : List Message) (trigger : Message)
    (maxTokens : Nat) (agentName : String) (now : Int) : List Message :=
  let chain := traceReplyChain trigger.id messages
  let p1 := hybridFill maxTokens chain [] 0
  let fiveMinAgo := now - 5 * 60 * 1000
  let mentionsList := messages.filter (fun m =>
    decide (fiveMinAgo ≤ m.timestamp) && m.mentions.contains agentName &&
    !decide (m ∈ p1.1))
  let p2 := hybridFill maxTokens mentionsList p1.1 p1.2
  let remaining := (messages.filter (fun m => !decide (m ∈ p2.1))).map
    (fun msg => (msg, calculateImportance msg agentName,
      estimateTokens msg.content))
  let remainingSorted := List.insertionSort byScoreDesc remaining
  let p3 := hybridFill maxTokens (remainingSorted.map (fun e => e.1)) p2.1 p2.2
  sortByTimestamp p3.1

/-- `compressContext`: dispatch on the strategy. -/
def compressContext (messages : List Message) (trigger : Message)
    (strategy : Strategy) (maxTokens : Nat) (agentName : String) (now : Int) :
    List Message :=
  match strategy with
  | .recent => compressRecent messages trigger maxTokens
  | .important => compressImportant messages trigger maxTokens agentName
  | .hybrid => compressHybrid messages trigger maxTokens agentName now

/-! ### Compressor lemmas -/

theorem mem_sortByTimestamp {m : Message} {l : List Message} :
    m ∈ sortByTimestamp l ↔ m ∈ l :=
  (List.perm_insertionSort byTimestamp l).mem_iff

theorem sortByTimestamp_sorted (l : List Message) :
    (sortByTimestamp l).Sorted byTimestamp :=
  List.sorted_insertionSort byTimestamp l

theorem sortByTimestamp_nodup {l : List Message} (h : l.Nodup) :
    (sortByTimestamp l).Nodup :=
  ((List.perm_insertionSort byTimestamp l).nodup_iff).mpr h

theorem recentPick_sublist (triggerId : String) (maxTokens : Nat) :
    ∀ (rev : List Message) (tokenCount : Nat),
      List.Sublist (recentPick rev triggerId maxTokens tokenCount) rev := by
  intro rev
  induction rev with
  | nil => intro tc; simp [recentPick]
  | cons m rest ih =>
    intro tc
    rw [recentPick]
    split
    · exact (ih tc).cons m
    · split
      · simp
      · exact (ih _).cons₂ m

theorem recentPick_id_ne (triggerId : String) (maxTokens : Nat) :
    ∀ (rev : List Message) (tokenCount : Nat),
      ∀ m ∈ recentPick rev triggerId maxTokens tokenCount,
        m.id ≠ triggerId := by
  intro rev
  induction rev with
  | nil => intro tc m hm; simp [recentPick] at hm
  | cons a rest ih =>
    intro tc m hm
    rw [recentPick] at hm
    split at hm
    · exact ih tc m hm
    · split at hm
      · simp at hm
      · next hne _ =>
        rcases List.mem_cons.mp hm with rfl | hm
        · intro hc
          exact hne (by simpa using hc)
        · exact ih _ m hm

theorem importantGreedy_sublist (triggerId : String) (maxTokens : Nat) :
    ∀ (l : List (Message × ℚ × Nat)) (tokenCount : Nat),
      List.Sublist (importantGreedy l triggerId maxTokens tokenCount).1
        (l.map (fun e => e.1)) := by
  intro l
  induction l with
  | nil => intro tc; simp [importantGreedy]
  | cons e rest ih =>
    intro tc
    rw [importantGreedy]
    split
    · exact (ih tc).cons e.1
    · split
      · exact (ih tc).cons e.1
      · exact (ih _).cons₂ e.1

theorem importantGreedy_id_ne (triggerId : String) (maxTokens : Nat) :
    ∀ (l : List (Message × ℚ × Nat)) (tokenCount : Nat),
      ∀ m ∈ (importantGreedy l triggerId maxTokens tokenCount).1,
        m.id ≠ triggerId := by
  intro l
  induction l with
  | nil => intro tc m hm; simp [importantGreedy] at hm
  | cons e rest ih =>
    intro tc m hm
    rw [importantGreedy] at hm
    split at hm
    · exact ih tc m hm
    · split at hm
      · exact ih tc m hm
      · next hne _ =>
        rcases List.mem_cons.mp hm with rfl | hm
        · intro hc
          exact hne (by simpa using hc)
        · exact ih _ m hm

theorem addToSet_nodup {acc : List Message} (h : acc.Nodup) (m : Message) :
    (addToSet acc m).Nodup := by
  rw [addToSet]
  split
  · exact h
  · next hnm =>
    rw [List.nodup_append]
    refine ⟨h, List.nodup_singleton m, fun a ha ham => ?_⟩
    rw [List.mem_singleton] at ham
    exact hnm (ham ▸ ha)

theorem mem_addToSet {acc : List Message} {m x : Message}
    (h : x ∈ addToSet acc m) : x ∈ acc ∨ x = m := by
  rw [addToSet] at h
  split at h
  · exact Or.inl h
  · rcases List.mem_append.mp h with h | h
    · exact Or.inl h
    · exact Or.inr (List.mem_singleton.mp h)

theorem hybridFill_nodup (maxTokens : Nat) :
    ∀ (l acc : List Message) (tokenCount : Nat), acc.Nodup →
      (hybridFill maxTokens l acc tokenCount).1.Nodup := by
  intro l
  induction l with
  | nil => intro acc tc h; exact h
  | cons m rest ih =>
    intro acc tc h
    rw [hybridFill]
    split
    · exact ih _ _ (addToSet_nodup h m)
    · exact ih _ _ h

theorem hybridFill_mem (maxTokens : Nat) :
    ∀ (l acc : List Message) (tokenCount : Nat),
      ∀ x ∈ (hybridFill maxTokens l acc tokenCount).1, x ∈ acc ∨ x ∈ l := by
  intro l
  induction l with
  | nil => intro acc tc x hx; exact Or.inl hx
  | cons m rest ih =>
    intro acc tc x hx
    rw [hybridFill] at hx
    split at hx
    · rcases ih _ _ x hx with hx | hx
      · rcases mem_addToSet hx with hx | rfl
        · exact Or.inl hx
        · exact Or.inr (List.mem_cons_self _ _)
      · exact Or.inr (List.mem_cons_of_mem _ hx)
    · rcases ih _ _ x hx with hx | hx
      · exact Or.inl hx
      · exact Or.inr (List.mem_cons_of_mem _ hx)

theorem traceAux_subset (messages : List Message) :
    ∀ (fuel : Nat) (cur : Option String) (visited : List String),
      ∀ m ∈ traceAux messages fuel cur visited, m ∈ messages := by
  intro fuel
  induction fuel with
  | zero => intro cur visited m hm; simp [traceAux] at hm
  | succ n ih =>
    intro cur visited m hm
    match cur with
    | none => simp [traceAux] at hm
    | some currentId =>
      rw [traceAux] at hm
      split at hm
      · simp at hm
      · split at hm
        · simp at hm
        · next msg hfind =>
          rcases List.mem_cons.mp hm with rfl | hm
          · exact List.mem_of_find?_eq_some hfind
          · exact ih _ _ m hm

theorem traceReplyChain_subset (targetId : String) (messages : List Message)
    (maxDepth : Nat) :
    ∀ m ∈ traceReplyChain targetId messages maxDepth, m ∈ messages := by
  intro m hm
  rw [traceReplyChain, List.mem_reverse] at hm
  exact traceAux_subset messages maxDepth (some targetId) [] m hm

theorem importantScored_map_fst (messages : List Message) (agentName : String) :
    List.Perm ((importantScored messages agentName).map (fun e => e.1))
      messages := by
  have hperm := List.perm_insertionSort byScoreDesc
    (messages.map fun msg =>
      (msg, calculateImportance msg agentName, estimateTokens msg.content))
  have := hperm.map (fun e : Message × ℚ × Nat => e.1)
  rw [List.map_map] at this
  simpa [importantScored, Function.comp_def, List.map_id'] using this

theorem compressHybrid_subset (messages : List Message) (trigger : Message)
    (maxTokens : Nat) (agentName : String) (now : Int) :
    ∀ m ∈ compressHybrid messages trigger maxTokens agentName now,
      m ∈ messages := by
  intro m hm
  rw [compressHybrid] at hm
  rw [mem_sortByTimestamp] at hm
  rcases hybridFill_mem _ _ _ _ m hm with hm | hm
  · rcases hybridFill_mem _ _ _ _ m hm with hm | hm
    · rcases hybridFill_mem _ _ _ _ m hm with hm | hm
      · simp at hm
      · exact traceReplyChain_subset _ _ _ m hm
    · exact List.mem_of_mem_filter hm
  · obtain ⟨e, he, rfl⟩ := List.mem_map.mp hm
    have := (List.perm_insertionSort byScoreDesc _).mem_iff.mp he
    obtain ⟨msg, hmsg, rfl⟩ := List.mem_map.mp this
    exact List.mem_of_mem_filter hmsg

/-! ### C3 and C4 -/

/-- Counterexample material for C3 and C4. -/
def dupMsg : Message :=
  { id := "m", sender := "s", senderType := "human", content := "",
    mentions := [], timestamp := 0 }

def c3Trigger : Message :=
  { id := "t", sender := "u", senderType := "human", content := "",
    mentions := [], timestamp := 1 }

/-- Counterexample to C3 as stated: a history that repeats the same message
leads the `recent` strategy to return that message twice. -/
theorem claim_C3_counterexample :
    ¬ (compressContext [dupMsg, dupMsg] c3Trigger .recent 0 "" 0).Nodup := by
  decide

/-- **C3 (amended).** Every `compressContext` output is chronologically
non-decreasing and a subset of history ∪ {trigger}; it is duplicate-free
whenever the input history is (for a duplicated history the `recent` and
`important` strategies can echo the duplicates). -/
theorem claim_C3_compress_invariants (messages : List Message)
    (trigger : Message) (strategy : Strategy) (maxTokens : Nat)
    (agentName : String) (now : Int) :
    (compressContext messages trigger strategy maxTokens agentName now).Sorted
      byTimestamp ∧
    (∀ m ∈ compressContext messages trigger strategy maxTokens agentName now,
      m ∈ messages ∨ m = trigger) ∧
    (messages.Nodup →
      (compressContext messages trigger strategy maxTokens agentName now).Nodup) := by
  match strategy with
  | .recent =>
    refine ⟨sortByTimestamp_sorted _, fun m hm => ?_, fun hnd => ?_⟩
    · rw [compressContext, compressRecent, mem_sortByTimestamp] at hm
      rcases List.mem_append.mp hm with hm | hm
      · rw [List.mem_reverse] at hm
        have := (recentPick_sublist _ _ _ _).mem hm
        exact Or.inl (List.mem_reverse.mp this)
      · split at hm
        · exact Or.inr (List.mem_singleton.mp hm)
        · simp at hm
    · rw [compressContext, compressRecent]
      apply sortByTimestamp_nodup
      rw [List.nodup_append]
      have hpick : (recentPick messages.reverse trigger.id maxTokens
          (if estimateTokens trigger.content ≤ maxTokens then
            estimateTokens trigger.content else 0)).Nodup :=
        (recentPick_sublist _ _ _ _).nodup (by simpa using hnd)
      refine ⟨by simpa using hpick, ?_, ?_⟩
      · split
        · exact List.nodup_singleton _
        · exact List.nodup_nil
      · intro a ha hb
        rw [List.mem_reverse] at ha
        have hne := recentPick_id_ne _ _ _ _ a ha
        split at hb
        · rw [List.mem_singleton] at hb
          exact hne (by rw [hb])
        · simp at hb
  | .important =>
    refine ⟨sortByTimestamp_sorted _, fun m hm => ?_, fun hnd => ?_⟩
    · rw [compressContext, compressImportant, mem_sortByTimestamp] at hm
      have hsel : ∀ x ∈ (importantGreedy (importantScored messages agentName)
          trigger.id maxTokens 0).1, x ∈ messages := by
        intro x hx
        have := (importantGreedy_sublist _ _ _ _).mem hx
        exact (importantScored_map_fst messages agentName).mem_iff.mp this
      split at hm
      · rcases List.mem_append.mp hm with hm | hm
        · exact Or.inl (hsel m hm)
        · exact Or.inr (List.mem_singleton.mp hm)
      · exact Or.inl (hsel m hm)
    · rw [compressContext, compressImportant]
      apply sortByTimestamp_nodup
      have hmapnd : ((importantScored messages agentName).map
          (fun e => e.1)).Nodup :=
        (importantScored_map_fst messages agentName).nodup_iff.mpr hnd
      have hselnd : (importantGreedy (importantScored messages agentName)
          trigger.id maxTokens 0).1.Nodup :=
        (importantGreedy_sublist _ _ _ _).nodup hmapnd
      split
      · rw [List.nodup_append]
        refine ⟨hselnd, List.nodup_singleton _, ?_⟩
        intro a ha hb
        rw [List.mem_singleton] at hb
        exact importantGreedy_id_ne _ _ _ _ a ha (by rw [hb])
      · exact hselnd
  | .hybrid =>
    refine ⟨sortByTimestamp_sorted _, fun m hm => ?_, fun _ => ?_⟩
    · exact Or.inl (compressHybrid_subset messages trigger maxTokens
        agentName now m hm)
    · rw [compressContext, compressHybrid]
      apply sortByTimestamp_nodup
      exact hybridFill_nodup _ _ _ _ (hybridFill_nodup _ _ _ _
        (hybridFill_nodup _ _ _ _ List.nodup_nil))

/-- Witness for C3 (amended): a duplicate-free two-message history
compressed with `recent` yields a duplicate-free chronological output. -/
theorem claim_C3_compress_invariants_witness :
    (compressContext [dupMsg] c3Trigger .recent 0 "" 0).Sorted byTimestamp ∧
    (compressContext [dupMsg] c3Trigger .recent 0 "" 0).Nodup :=
  ⟨(claim_C3_compress_invariants [dupMsg] c3Trigger .recent 0 "" 0).1,
   (claim_C3_compress_invariants [dupMsg] c3Trigger .recent 0 "" 0).2.2
     (by decide)⟩

/-- Counterexample to C4 as stated: under the `hybrid` strategy a trigger
that is not part of the history is dropped even though it fits the budget
(the empty history yields an empty result). -/
theorem claim_C4_counterexample :
    estimateTokens c3Trigger.content ≤ 10 ∧
    c3Trigger ∉ compressContext [] c3Trigger .hybrid 10 "" 0 := by
  decide

/-- **C4 (amended).** `recent` includes the trigger whenever its estimated
tokens fit the budget, even when it is not in the history; `important`
includes it whenever it fits the budget left after the greedy pass; `hybrid`
can only ever include a trigger that is an element of the history (it enters
through the reply-chain pass alone). -/
theorem claim_C4_trigger_inclusion (messages : List Message)
    (trigger : Message) (maxTokens : Nat) (agentName : String) (now : Int) :
    (estimateTokens trigger.content ≤ maxTokens →
      trigger ∈ compressContext messages trigger .recent maxTokens agentName now) ∧
    ((importantGreedy (importantScored messages agentName) trigger.id maxTokens
        0).2 + estimateTokens trigger.content ≤ maxTokens →
      trigger ∈ compressContext messages trigger .important maxTokens agentName now) ∧
    (trigger ∈ compressContext messages trigger .hybrid maxTokens agentName now →
      trigger ∈ messages) := by
  refine ⟨fun hfit => ?_, fun hfit => ?_, fun hmem => ?_⟩
  · rw [compressContext, compressRecent, mem_sortByTimestamp]
    apply List.mem_append.mpr
    right
    rw [if_pos hfit]
    exact List.mem_singleton.mpr rfl
  · rw [compressContext, compressImportant, mem_sortByTimestamp]
    rw [if_pos hfit]
    exact List.mem_append.mpr (Or.inr (List.mem_singleton.mpr rfl))
  · exact compressHybrid_subset messages trigger maxTokens agentName now
      trigger hmem

/-- Witness for C4 (amended): concrete instantiations of all three parts
(`recent` with the trigger outside the history; `important` on the empty
history; `hybrid` with the trigger as the sole history element). -/
theorem claim_C4_trigger_inclusion_witness :
    c3Trigger ∈ compressContext [dupMsg] c3Trigger .recent 10 "" 0 ∧
    c3Trigger ∈ compressContext [] c3Trigger .important 10 "" 0 ∧
    c3Trigger ∈ [c3Trigger] :=
  ⟨(claim_C4_trigger_inclusion [dupMsg] c3Trigger 10 "" 0).1 (by decide),
   (claim_C4_trigger_inclusion [] c3Trigger 10 "" 0).2.1 (by decide),
   (claim_C4_trigger_inclusion [c3Trigger] c3Trigger 10 "" 0).2.2 (by decide)⟩

/-! ## AdmissionController (`security.ts` `GlobalRateLimiter`)

`Date.now()` becomes the explicit `now` argument; the mutable singleton
becomes explicit state passing.  Bucket token counts are `ℚ`. -/

/-- Per-identity token bucket (`security.ts` `TokenBucket`). -/
structure TokenBucket where
  tokens : ℚ
  lastRefill : Int
deriving DecidableEq, Repr

/-- `security.ts` `RateLimitResult`. -/
structure RateLimitResult where
  allowed : Bool
  reason : Option String := none
  retryAfter : Option Int := none
deriving DecidableEq, Repr

/-- The mutable fields of `GlobalRateLimiter`; the `Map` of buckets is an
association list keyed by sender name. -/
structure RateLimiterState where
  agentMessageTimestamps : List Int := []
  tokenBuckets : List (String × TokenBucket) := []
deriving DecidableEq, Repr

/-- `BUCKET_CAPACITY` (5 tokens). -/
def BUCKET_CAPACITY : ℚ := 5

/-- `REFILL_RATE` (1 token per second). -/
def REFILL_RATE : ℚ := 1

/-- `Map.get`. -/
def bucketsFind (bs : List (String × TokenBucket)) (k : String) :
    Option TokenBucket :=
  (bs.find? (fun p => p.1 == k)).map Prod.snd

/-- `Map.set`: overwrite the (unique) existing entry, else append a new
one.  Keys are unique in every state the limiter builds, so replacing the
first match models the `Map` exactly. -/
def bucketsSet (bs : List (String × TokenBucket)) (k : String)
    (v : TokenBucket) : List (String × TokenBucket) :=
  match bs with
  | [] => [(k, v)]
  | p :: rest => if p.1 == k then (k, v) :: rest else p :: bucketsSet rest k v

/-- The lazy refill performed at the top of `checkTokenBucket`: take the
sender's bucket (a fresh full one if absent), add `elapsedSeconds ×
REFILL_RATE` tokens clamped to capacity, and stamp `lastRefill := now`. -/
def refillBucket (bs : List (String × TokenBucket)) (sender : String)
    (now : Int) : TokenBucket :=
  let bucket0 : TokenBucket :=
    match bucketsFind bs sender with
    | some b => b
    | none => { tokens := BUCKET_CAPACITY, lastRefill := now }
  let elapsedSeconds : ℚ := ((now - bucket0.lastRefill : Int) : ℚ) / 1000
  let tokensToAdd := elapsedSeconds * REFILL_RATE
  { tokens := min BUCKET_CAPACITY (bucket0.tokens + tokensToAdd),
    lastRefill := now }

/-- `GlobalRateLimiter.checkTokenBucket`: create the bucket at full capacity
if absent, refill lazily from elapsed wall-clock time, then test for one
available token. -/
def checkTokenBucket (st : RateLimiterState) (sender : String) (now : Int) :
    RateLimitResult × RateLimiterState :=
  let bucket1 := refillBucket st.tokenBuckets sender now
  let st' := { st with tokenBuckets := bucketsSet st.tokenBuckets sender bucket1 }
  if bucket1.tokens < 1 then
    ({ allowed := false, reason := some "Per-agent rate limit exceeded",
       retryAfter := some ⌈(1 - bucket1.tokens) / REFILL_RATE * 1000⌉ }, st')
  else
    ({ allowed := true }, st')

/-- `GlobalRateLimiter.consumeToken`. -/
def consumeToken (st : RateLimiterState) (sender : String) : RateLimiterState :=
  match bucketsFind st.tokenBuckets sender with
  | some b =>
    if 1 ≤ b.tokens then
      { st with tokenBuckets :=
          bucketsSet st.tokenBuckets sender { b with tokens := b.tokens - 1 } }
    else st
  | none => st

/-- The sliding-window prune `now - ts < 60000` applied to a state's
timestamps. -/
def pruneWindow (st : RateLimiterState) (now : Int) : List Int :=
  st.agentMessageTimestamps.filter (fun ts => now - ts < 60000)

/-- `GlobalRateLimiter.checkRateLimit`: humans pass; then the global
sliding window (15 agent messages / 60 s), the per-identity token bucket,
and the 70 % agent-ratio check, in source order; on success the timestamp
is recorded and one token consumed. -/
def checkRateLimit (st : RateLimiterState) (sender senderType : String)
    (allMessages : List Message) (now : Int) :
    RateLimitResult × RateLimiterState :=
  if senderType == "human" then
    ({ allowed := true }, st)
  else
    let pruned := pruneWindow st now
    let st1 := { st with agentMessageTimestamps := pruned }
    if 15 ≤ pruned.length then
      let oldestTimestamp := pruned.headD 0
      ({ allowed := false,
         reason := some "Global agent rate limit exceeded (15/min)",
         retryAfter := some (60000 - (now - oldestTimestamp)) }, st1)
    else
      let bucketStep := checkTokenBucket st1 sender now
      if !bucketStep.1.allowed then
        bucketStep
      else
        let st2 := bucketStep.2
        let recent := allMessages.filter (fun m => now - 60000 < m.timestamp)
        let agentCount := (recent.filter (fun m => m.senderType == "agent")).length
        let totalCount := recent.length
        if 0 < totalCount ∧ (7 : ℚ) / 10 < (agentCount : ℚ) / (totalCount : ℚ) then
          ({ allowed := false,
             reason := some "Agent message ratio too high (max 70%)",
             retryAfter := some 5000 }, st2)
        else
          let st3 :=
            { st2 with agentMessageTimestamps := st2.agentMessageTimestamps ++ [now] }
          ({ allowed := true }, consumeToken st3 sender)

/-- States of the rate limiter reachable from the fresh singleton through
admission calls made at nondecreasing wall-clock times; the `Int` index is
the time of the latest call. -/
inductive Reachable : Int → RateLimiterState → Prop
  | init (t : Int) : Reachable t {}
  | step {t : Int} {st : RateLimiterState} (sender senderType : String)
      (msgs : List Message) {now : Int} (h : Reachable t st) (hle : t ≤ now) :
      Reachable now (checkRateLimit st sender senderType msgs now).2

/-- Invariant on the sliding window: at most 15 entries, sorted, none in
the future. -/
def WindowInv (t : Int) (st : RateLimiterState) : Prop :=
  st.agentMessageTimestamps.length ≤ 15 ∧
  st.agentMessageTimestamps.Sorted (· ≤ ·) ∧
  ∀ ts ∈ st.agentMessageTimestamps, ts ≤ t

/-- Invariant on the buckets: tokens within `[0, capacity]`, refill stamp
not in the future. -/
def BucketInv (t : Int) (st : RateLimiterState) : Prop :=
  ∀ p ∈ st.tokenBuckets, 0 ≤ p.2.tokens ∧ p.2.tokens ≤ BUCKET_CAPACITY ∧
    p.2.lastRefill ≤ t

/-! ### Association-list lemmas -/

theorem bucketsFind_mem {bs : List (String × TokenBucket)} {k : String}
    {b : TokenBucket} (h : bucketsFind bs k = some b) : (k, b) ∈ bs := by
  rw [bucketsFind] at h
  obtain ⟨p, hp, hpb⟩ := Option.map_eq_some'.mp h
  have hmem := List.mem_of_find?_eq_some hp
  have hkey : p.1 = k := by simpa using List.find?_some hp
  have : p = (k, b) := by
    cases p
    simp_all
  rwa [← this]

theorem bucketsFind_bucketsSet_self (bs : List (String × TokenBucket))
    (k : String) (v : TokenBucket) :
    bucketsFind (bucketsSet bs k v) k = some v := by
  induction bs with
  | nil => simp [bucketsSet, bucketsFind]
  | cons p rest ih =>
    rw [bucketsSet]
    by_cases hp : (p.1 == k) = true
    · rw [if_pos hp]
      simp [bucketsFind]
    · rw [if_neg hp]
      have hp' : (p.1 == k) = false := by simpa using hp
      rw [bucketsFind, List.find?_cons, hp']
      exact ih

theorem bucketsFind_bucketsSet_ne (bs : List (String × TokenBucket))
    {s k : String} (v : TokenBucket) (hne : s ≠ k) :
    bucketsFind (bucketsSet bs k v) s = bucketsFind bs s := by
  have hks : (k == s) = false := beq_eq_false_iff_ne.mpr (fun h => hne h.symm)
  induction bs with
  | nil =>
    rw [bucketsSet, bucketsFind, bucketsFind, List.find?_cons, hks]
  | cons p rest ih =>
    rw [bucketsSet]
    by_cases hp : (p.1 == k) = true
    · rw [if_pos hp]
      have hpk : p.1 = k := by simpa using hp
      have hps : (p.1 == s) = false := by rw [hpk]; exact hks
      rw [bucketsFind, bucketsFind, List.find?_cons, List.find?_cons, hks, hps]
    · rw [if_neg hp]
      by_cases hps : (p.1 == s) = true
      · rw [bucketsFind, bucketsFind, List.find?_cons, List.find?_cons, hps]
      · have hps' : (p.1 == s) = false := by simpa using hps
        rw [bucketsFind, bucketsFind, List.find?_cons, List.find?_cons, hps']
        exact ih

theorem mem_bucketsSet {bs : List (String × TokenBucket)} {k : String}
    {v : TokenBucket} {q : String × TokenBucket}
    (h : q ∈ bucketsSet bs k v) : q ∈ bs ∨ q = (k, v) := by
  induction bs with
  | nil => simpa [bucketsSet] using h
  | cons p rest ih =>
    rw [bucketsSet] at h
    by_cases hp : (p.1 == k) = true
    · rw [if_pos hp] at h
      rcases List.mem_cons.mp h with rfl | h
      · exact Or.inr rfl
      · exact Or.inl (List.mem_cons_of_mem _ h)
    · rw [if_neg hp] at h
      rcases List.mem_cons.mp h with rfl | h
      · exact Or.inl (List.mem_cons_self _ _)
      · rcases ih h with h | h
        · exact Or.inl (List.mem_cons_of_mem _ h)
        · exact Or.inr h

/-! ### Refill and consume lemmas -/

theorem refillBucket_bounds {t : Int} {st : RateLimiterState}
    (hInv : BucketInv t st) (sender : String) {now : Int} (hle : t ≤ now) :
    0 ≤ (refillBucket st.tokenBuckets sender now).tokens ∧
    (refillBucket st.tokenBuckets sender now).tokens ≤ BUCKET_CAPACITY := by
  rw [refillBucket]
  cases hfind : bucketsFind st.tokenBuckets sender with
  | none =>
    simp only [hfind]
    constructor
    · simp [BUCKET_CAPACITY, REFILL_RATE]
    · exact min_le_left _ _
  | some b =>
    obtain ⟨htok0, htok5, hlast⟩ := hInv _ (bucketsFind_mem hfind)
    have hlast' : b.lastRefill ≤ t := hlast
    have helap : (0 : ℚ) ≤ ((now - b.lastRefill : Int) : ℚ) / 1000 := by
      apply div_nonneg _ (by norm_num)
      have : (0 : Int) ≤ now - b.lastRefill := by omega
      exact_mod_cast this
    simp only [hfind]
    refine ⟨le_min (by norm_num [BUCKET_CAPACITY]) ?_, min_le_left _ _⟩
    have : (0 : ℚ) ≤ ((now - b.lastRefill : Int) : ℚ) / 1000 * REFILL_RATE := by
      apply mul_nonneg helap
      norm_num [REFILL_RATE]
    linarith

theorem refillBucket_mono {t : Int} {st : RateLimiterState}
    (hInv : BucketInv t st) {sender : String} {now : Int} (hle : t ≤ now)
    {b : TokenBucket} (hfind : bucketsFind st.tokenBuckets sender = some b) :
    b.tokens ≤ (refillBucket st.tokenBuckets sender now).tokens := by
  obtain ⟨htok0, htok5, hlast⟩ := hInv _ (bucketsFind_mem hfind)
  have htok5' : b.tokens ≤ BUCKET_CAPACITY := htok5
  have hlast' : b.lastRefill ≤ t := hlast
  rw [refillBucket]
  simp only [hfind]
  apply le_min htok5'
  have hnum : (0 : ℚ) ≤ ((now - b.lastRefill : Int) : ℚ) := by
    have : (0 : Int) ≤ now - b.lastRefill := by omega
    exact_mod_cast this
  have helap : (0 : ℚ) ≤ ((now - b.lastRefill : Int) : ℚ) / 1000 * REFILL_RATE := by
    apply mul_nonneg (div_nonneg hnum (by norm_num))
    norm_num [REFILL_RATE]
  linarith

theorem refillBucket_full {st : RateLimiterState} {sender : String}
    {now : Int} {b : TokenBucket}
    (hfind : bucketsFind st.tokenBuckets sender = some b)
    (htok0 : 0 ≤ b.tokens) (hwait : 5000 ≤ now - b.lastRefill) :
    (refillBucket st.tokenBuckets sender now).tokens = BUCKET_CAPACITY := by
  rw [refillBucket]
  simp only [hfind]
  apply min_eq_left
  have h1 : (5000 : ℚ) ≤ ((now - b.lastRefill : Int) : ℚ) := by exact_mod_cast hwait
  have h2 : (5 : ℚ) ≤ ((now - b.lastRefill : Int) : ℚ) / 1000 := by linarith
  rw [REFILL_RATE, BUCKET_CAPACITY]
  have h3 : ((now - b.lastRefill : Int) : ℚ) / 1000 * 1 =
      ((now - b.lastRefill : Int) : ℚ) / 1000 := mul_one _
  linarith

/-! ### Invariant preservation -/

theorem windowInv_mono {t now : Int} {st : RateLimiterState}
    (h : WindowInv t st) (hle : t ≤ now) : WindowInv now st :=
  ⟨h.1, h.2.1, fun ts hts => le_trans (h.2.2 ts hts) hle⟩

theorem bucketInv_mono {t now : Int} {st : RateLimiterState}
    (h : BucketInv t st) (hle : t ≤ now) : BucketInv now st :=
  fun p hp => ⟨(h p hp).1, (h p hp).2.1, le_trans (h p hp).2.2 hle⟩

theorem windowInv_congr {t : Int} {s1 s2 : RateLimiterState}
    (h : s2.agentMessageTimestamps = s1.agentMessageTimestamps)
    (hw : WindowInv t s1) : WindowInv t s2 := by
  rw [WindowInv, h]
  exact hw

theorem windowInv_prune {t : Int} {st : RateLimiterState} {now : Int}
    (h : WindowInv t st) (hle : t ≤ now) :
    WindowInv now { st with agentMessageTimestamps := pruneWindow st now } := by
  refine ⟨le_trans (List.length_filter_le _ _) h.1,
    List.Pairwise.sublist (List.filter_sublist _) h.2.1, fun ts hts => ?_⟩
  exact le_trans (h.2.2 ts (List.mem_of_mem_filter hts)) hle

theorem checkTokenBucket_window (st : RateLimiterState) (sender : String)
    (now : Int) :
    (checkTokenBucket st sender now).2.agentMessageTimestamps =
      st.agentMessageTimestamps := by
  rw [checkTokenBucket]
  split <;> rfl

theorem checkTokenBucket_buckets (st : RateLimiterState) (sender : String)
    (now : Int) :
    (checkTokenBucket st sender now).2.tokenBuckets =
      bucketsSet st.tokenBuckets sender
        (refillBucket st.tokenBuckets sender now) := by
  rw [checkTokenBucket]
  split <;> rfl

theorem checkTokenBucket_bucketInv {t : Int} {st : RateLimiterState}
    (hInv : BucketInv t st) (sender : String) {now : Int} (hle : t ≤ now) :
    BucketInv now (checkTokenBucket st sender now).2 := by
  intro p hp
  rw [checkTokenBucket_buckets] at hp
  rcases mem_bucketsSet hp with hmem | rfl
  · obtain ⟨h0, h5, hl⟩ := hInv p hmem
    exact ⟨h0, h5, le_trans hl hle⟩
  · obtain ⟨h0, h5⟩ := refillBucket_bounds hInv sender hle
    exact ⟨h0, h5, le_refl now⟩

theorem consumeToken_window (st : RateLimiterState) (sender : String) :
    (consumeToken st sender).agentMessageTimestamps =
      st.agentMessageTimestamps := by
  rw [consumeToken]
  split
  · split <;> rfl
  · rfl

theorem consumeToken_bucketInv {t : Int} {st : RateLimiterState}
    (hInv : BucketInv t st) (sender : String) :
    BucketInv t (consumeToken st sender) := by
  intro p hp
  rw [consumeToken] at hp
  cases hfind : bucketsFind st.tokenBuckets sender with
  | none =>
    rw [hfind] at hp
    exact hInv p hp
  | some b =>
    rw [hfind] at hp
    dsimp only at hp
    obtain ⟨h0, h5, hl⟩ := hInv _ (bucketsFind_mem hfind)
    have h5' : b.tokens ≤ BUCKET_CAPACITY := h5
    have hl' : b.lastRefill ≤ t := hl
    by_cases hge : 1 ≤ b.tokens
    · rw [if_pos hge] at hp
      rcases mem_bucketsSet hp with hmem | rfl
      · exact hInv p hmem
      · exact ⟨show (0 : ℚ) ≤ b.tokens - 1 by linarith,
          show b.tokens - 1 ≤ BUCKET_CAPACITY by linarith, hl'⟩
    · rw [if_neg hge] at hp
      exact hInv p hp

theorem checkRateLimit_inv {t : Int} {st : RateLimiterState}
    (hw : WindowInv t st) (hb : BucketInv t st) (sender senderType : String)
    (msgs : List Message) {now : Int} (hle : t ≤ now) :
    WindowInv now (checkRateLimit st sender senderType msgs now).2 ∧
    BucketInv now (checkRateLimit st sender senderType msgs now).2 := by
  rw [checkRateLimit]
  by_cases hty : (senderType == "human") = true
  · rw [if_pos hty]
    exact ⟨windowInv_mono hw hle, bucketInv_mono hb hle⟩
  · rw [if_neg hty]
    set st1 : RateLimiterState :=
      { st with agentMessageTimestamps := pruneWindow st now } with hst1
    have hw1 : WindowInv now st1 := windowInv_prune hw hle
    have hb1 : BucketInv now st1 := bucketInv_mono hb hle
    by_cases hfull : 15 ≤ (pruneWindow st now).length
    · rw [if_pos hfull]
      exact ⟨hw1, hb1⟩
    · rw [if_neg hfull]
      have hb2 : BucketInv now (checkTokenBucket st1 sender now).2 :=
        checkTokenBucket_bucketInv hb1 sender (le_refl now)
      have hw2win : (checkTokenBucket st1 sender now).2.agentMessageTimestamps =
          pruneWindow st now := checkTokenBucket_window st1 sender now
      by_cases hbk : (!(checkTokenBucket st1 sender now).1.allowed) = true
      · rw [if_pos hbk]
        refine ⟨⟨?_, ?_, ?_⟩, hb2⟩
        · rw [hw2win]
          exact hw1.1
        · rw [hw2win]
          exact hw1.2.1
        · rw [hw2win]
          exact hw1.2.2
      · rw [if_neg hbk]
        set st2 := (checkTokenBucket st1 sender now).2 with hst2
        dsimp only
        split
        · exact ⟨⟨by rw [hw2win]; exact hw1.1, by rw [hw2win]; exact hw1.2.1,
            by rw [hw2win]; exact hw1.2.2⟩, hb2⟩
        · set st3 : RateLimiterState :=
            { st2 with agentMessageTimestamps :=
                st2.agentMessageTimestamps ++ [now] } with hst3
          have hw3 : WindowInv now st3 := by
            refine ⟨?_, ?_, ?_⟩
            · show (st2.agentMessageTimestamps ++ [now]).length ≤ 15
              rw [List.length_append, hw2win]
              have : (pruneWindow st now).length ≤ 14 := by omega
              simp only [List.length_singleton]
              omega
            · show (st2.agentMessageTimestamps ++ [now]).Sorted (· ≤ ·)
              rw [List.Sorted, List.pairwise_append]
              refine ⟨by rw [hw2win]; exact hw1.2.1, List.pairwise_singleton _ _,
                fun a ha b hb' => ?_⟩
              rw [hw2win] at ha
              rw [List.mem_singleton] at hb'
              subst hb'
              exact hw1.2.2 a ha
            · intro ts hts
              rcases List.mem_append.mp hts with hts | hts
              · rw [hw2win] at hts
                exact hw1.2.2 ts hts
              · rw [List.mem_singleton] at hts
                exact le_of_eq hts
          have hb3 : BucketInv now st3 := fun p hp => hb2 p hp
          exact ⟨windowInv_congr (consumeToken_window st3 sender) hw3,
            consumeToken_bucketInv hb3 sender⟩

/-- Every reachable rate-limiter state satisfies both invariants. -/
theorem reachable_inv {t : Int} {st : RateLimiterState} (h : Reachable t st) :
    WindowInv t st ∧ BucketInv t st := by
  induction h with
  | init t =>
    constructor
    · exact ⟨by simp, by simp [List.Sorted], by simp⟩
    · intro p hp
      simp at hp
  | step sender senderType msgs h hle ih =>
    exact checkRateLimit_inv ih.1 ih.2 sender senderType msgs hle

/-- **C1.** In every reachable state the window holds at most 15 timestamps
inside the trailing 60 s; and an agent admission attempt made while 15
admitted timestamps lie in the window is rejected, with `retryAfter` the
time until the oldest windowed entry leaves the 60 s window. -/
theorem claim_C1_sliding_window {t : Int} {st : RateLimiterState}
    (h : Reachable t st) {now : Int} (hle : t ≤ now)
    (sender senderType : String) (msgs : List Message) :
    (pruneWindow st now).length ≤ 15 ∧
    (senderType ≠ "human" → 15 ≤ (pruneWindow st now).length →
      ∃ oldest, (pruneWindow st now).head? = some oldest ∧
        (∀ ts ∈ pruneWindow st now, oldest ≤ ts) ∧
        (checkRateLimit st sender senderType msgs now).1 =
          { allowed := false,
            reason := some "Global agent rate limit exceeded (15/min)",
            retryAfter := some (60000 - (now - oldest)) }) := by
  obtain ⟨hw, hb⟩ := reachable_inv h
  constructor
  · exact le_trans (List.length_filter_le _ _) hw.1
  · intro hty hfull
    have hsorted : (pruneWindow st now).Sorted (· ≤ ·) :=
      List.Pairwise.sublist (List.filter_sublist _) hw.2.1
    have hcond : ¬((senderType == "human") = true) := fun hc =>
      hty (by simpa using hc)
    cases hne : pruneWindow st now with
    | nil =>
      rw [hne] at hfull
      simp at hfull
    | cons a l =>
      rw [hne] at hsorted
      refine ⟨a, rfl, ?_, ?_⟩
      · intro ts hts
        rcases List.mem_cons.mp hts with rfl | hts
        · exact le_refl ts
        · exact (List.sorted_cons.mp hsorted).1 ts hts
      · rw [checkRateLimit, if_neg hcond]
        dsimp only
        rw [if_pos hfull, hne]
        rfl

/-- Five-second full-refill bound needs the tokens to start nonnegative;
reachable states guarantee it. -/
theorem claim_C2_helper_nonneg {t : Int} {st : RateLimiterState}
    (h : Reachable t st) {sender : String} {b : TokenBucket}
    (hfind : bucketsFind st.tokenBuckets sender = some b) : 0 ≤ b.tokens :=
  ((reachable_inv h).2 _ (bucketsFind_mem hfind)).1

/-- **C2.** In every reachable state every bucket's token count lies in
`[0, capacity]` (capacity 5, refill 1 token/s); and once at least
capacity/rate = 5 s pass with no consumption, the next check refills the
bucket to full capacity and admits. -/
theorem claim_C2_token_bucket {t : Int} {st : RateLimiterState}
    (h : Reachable t st) :
    (∀ sender b, bucketsFind st.tokenBuckets sender = some b →
      0 ≤ b.tokens ∧ b.tokens ≤ BUCKET_CAPACITY) ∧
    (∀ sender b (now : Int), bucketsFind st.tokenBuckets sender = some b →
      t ≤ now → 5000 ≤ now - b.lastRefill →
      ∃ b', bucketsFind (checkTokenBucket st sender now).2.tokenBuckets sender =
          some b' ∧
        b'.tokens = BUCKET_CAPACITY ∧
        (checkTokenBucket st sender now).1.allowed = true) := by
  have hb := (reachable_inv h).2
  constructor
  · intro sender b hfind
    obtain ⟨h0, h5, _⟩ := hb _ (bucketsFind_mem hfind)
    exact ⟨h0, h5⟩
  · intro sender b now hfind hle hwait
    have h0 : 0 ≤ b.tokens := claim_C2_helper_nonneg h hfind
    have hfullTok : (refillBucket st.tokenBuckets sender now).tokens =
        BUCKET_CAPACITY := refillBucket_full hfind h0 hwait
    have hnotlt : ¬((refillBucket st.tokenBuckets sender now).tokens < 1) := by
      rw [hfullTok, BUCKET_CAPACITY]
      norm_num
    refine ⟨refillBucket st.tokenBuckets sender now, ?_, hfullTok, ?_⟩
    · rw [checkTokenBucket_buckets]
      exact bucketsFind_bucketsSet_self _ _ _
    · rw [checkTokenBucket, if_neg hnotlt]

/-- On any reject path the bucket map mutation is exactly the caller's lazy
refill: every existing bucket keeps at least its tokens, other keys are
untouched. -/
theorem bucketsSet_refill_chargeFree {t : Int} {st : RateLimiterState}
    (hb : BucketInv t st) {now : Int} (hle : t ≤ now) (sender : String) :
    (∀ s b, bucketsFind st.tokenBuckets s = some b →
      ∃ b', bucketsFind
          (bucketsSet st.tokenBuckets sender
            (refillBucket st.tokenBuckets sender now)) s = some b' ∧
        b.tokens ≤ b'.tokens) ∧
    (∀ s, s ≠ sender →
      bucketsFind
          (bucketsSet st.tokenBuckets sender
            (refillBucket st.tokenBuckets sender now)) s =
        bucketsFind st.tokenBuckets s) := by
  constructor
  · intro s b hfind
    by_cases hs : s = sender
    · subst hs
      exact ⟨refillBucket st.tokenBuckets s now,
        bucketsFind_bucketsSet_self _ _ _, refillBucket_mono hb hle hfind⟩
    · refine ⟨b, ?_, le_refl _⟩
      rw [bucketsFind_bucketsSet_ne _ _ hs]
      exact hfind
  · intro s hs
    exact bucketsFind_bucketsSet_ne _ _ hs

/-- **C10.** A rejected `checkRateLimit` call never charges the state: no
timestamp is appended to the sliding window, every pre-existing bucket keeps
at least its token count (the caller's bucket is only refilled upward), and
buckets of other identities are untouched. -/
theorem claim_C10_reject_no_charge {t : Int} {st : RateLimiterState}
    (h : Reachable t st) (sender senderType : String) (msgs : List Message)
    {now : Int} (hle : t ≤ now)
    (hrej : (checkRateLimit st sender senderType msgs now).1.allowed = false) :
    (∀ ts ∈ (checkRateLimit st sender senderType msgs now).2.agentMessageTimestamps,
        ts ∈ st.agentMessageTimestamps) ∧
    (∀ s b, bucketsFind st.tokenBuckets s = some b →
        ∃ b', bucketsFind
            (checkRateLimit st sender senderType msgs now).2.tokenBuckets s =
            some b' ∧ b.tokens ≤ b'.tokens) ∧
    (∀ s, s ≠ sender →
        bucketsFind (checkRateLimit st sender senderType msgs now).2.tokenBuckets s =
          bucketsFind st.tokenBuckets s) := by
  obtain ⟨hw, hb⟩ := reachable_inv h
  rw [checkRateLimit] at hrej ⊢
  by_cases hty : (senderType == "human") = true
  · rw [if_pos hty] at hrej
    simp at hrej
  · rw [if_neg hty] at hrej ⊢
    dsimp only at hrej ⊢
    by_cases hfull : 15 ≤ (pruneWindow st now).length
    · rw [if_pos hfull] at hrej ⊢
      exact ⟨fun ts hts => List.mem_of_mem_filter hts,
        fun s b hfind => ⟨b, hfind, le_refl _⟩, fun s _ => rfl⟩
    · rw [if_neg hfull] at hrej ⊢
      set st1 : RateLimiterState :=
        { st with agentMessageTimestamps := pruneWindow st now } with hst1
      have hbuckets1 : st1.tokenBuckets = st.tokenBuckets := rfl
      have hcharge := bucketsSet_refill_chargeFree hb hle sender
      have hbWindow : (checkTokenBucket st1 sender now).2.agentMessageTimestamps =
          pruneWindow st now := checkTokenBucket_window st1 sender now
      have hbBuckets : (checkTokenBucket st1 sender now).2.tokenBuckets =
          bucketsSet st.tokenBuckets sender
            (refillBucket st.tokenBuckets sender now) :=
        checkTokenBucket_buckets st1 sender now
      by_cases hbk : (!(checkTokenBucket st1 sender now).1.allowed) = true
      · rw [if_pos hbk] at hrej ⊢
        refine ⟨fun ts hts => ?_, fun s b hfind => ?_, fun s hs => ?_⟩
        · rw [hbWindow] at hts
          exact List.mem_of_mem_filter hts
        · rw [hbBuckets]
          exact hcharge.1 s b hfind
        · rw [hbBuckets]
          exact hcharge.2 s hs
      · rw [if_neg hbk] at hrej ⊢
        split at hrej
        · next hr =>
          rw [if_pos hr]
          refine ⟨fun ts hts => ?_, fun s b hfind => ?_, fun s hs => ?_⟩
          · rw [hbWindow] at hts
            exact List.mem_of_mem_filter hts
          · rw [hbBuckets]
            exact hcharge.1 s b hfind
          · rw [hbBuckets]
            exact hcharge.2 s hs
        · simp at hrej

/-! ### Symbolic execution of single admission calls

Rational arithmetic does not evaluate by kernel reduction (its
normalization runs `Nat.gcd`), so concrete runs are produced by these
step lemmas instead of by `decide`. -/

theorem bucketsSet_bucketsSet (bs : List (String × TokenBucket)) (k : String)
    (v w : TokenBucket) :
    bucketsSet (bucketsSet bs k v) k w = bucketsSet bs k w := by
  induction bs with
  | nil => simp [bucketsSet]
  | cons p rest ih =>
    rw [bucketsSet]
    by_cases hp : (p.1 == k) = true
    · rw [if_pos hp, bucketsSet, bucketsSet, if_pos (by simp), if_pos hp]
    · rw [if_neg hp, bucketsSet, bucketsSet, if_neg hp, if_neg hp, ih]

/-- One admission call by an agent with no bucket yet, on an uncontended
window and an empty room history: admitted, the timestamp is recorded, and
the fresh bucket ends at 4 = 5 − 1 tokens. -/
theorem checkRateLimit_freshSend (st : RateLimiterState) (sender : String)
    (now : Int) (hfind : bucketsFind st.tokenBuckets sender = none)
    (hlen : ¬ 15 ≤ (pruneWindow st now).length) :
    checkRateLimit st sender "agent" [] now =
      ({ allowed := true },
       { agentMessageTimestamps := pruneWindow st now ++ [now],
         tokenBuckets := bucketsSet st.tokenBuckets sender
           { tokens := 4, lastRefill := now } }) := by
  have hrb : refillBucket st.tokenBuckets sender now =
      { tokens := 5, lastRefill := now } := by
    rw [refillBucket, hfind]
    dsimp only
    rw [TokenBucket.mk.injEq]
    refine ⟨?_, rfl⟩
    rw [sub_self]
    norm_num [BUCKET_CAPACITY, REFILL_RATE]
  have hcb : checkTokenBucket
        { st with agentMessageTimestamps := pruneWindow st now } sender now =
      ({ allowed := true },
       { agentMessageTimestamps := pruneWindow st now,
         tokenBuckets := bucketsSet st.tokenBuckets sender
           { tokens := 5, lastRefill := now } }) := by
    rw [checkTokenBucket]
    dsimp only
    rw [hrb]
    rw [if_neg (by norm_num)]
  rw [checkRateLimit, if_neg (by decide)]
  dsimp only
  rw [if_neg hlen, hcb]
  rw [if_neg (by simp)]
  dsimp only
  simp only [List.filter_nil, List.length_nil, lt_self_iff_false, false_and,
    if_false]
  rw [consumeToken]
  dsimp only
  rw [bucketsFind_bucketsSet_self]
  dsimp only
  rw [if_pos (by norm_num), bucketsSet_bucketsSet]
  have h41 : (5 : ℚ) - 1 = 4 := by norm_num
  rw [h41]

/-- One admission call by an agent whose bucket was last refilled at the
same instant `now` with `tk ≥ 1` tokens: admitted, one token consumed. -/
theorem checkRateLimit_sameTimeSend (st : RateLimiterState) (sender : String)
    (now : Int) (tk tk' : ℚ)
    (hfind : bucketsFind st.tokenBuckets sender =
      some { tokens := tk, lastRefill := now })
    (htk5 : tk ≤ BUCKET_CAPACITY) (h1tk : 1 ≤ tk) (htk' : tk - 1 = tk')
    (hlen : ¬ 15 ≤ (pruneWindow st now).length) :
    checkRateLimit st sender "agent" [] now =
      ({ allowed := true },
       { agentMessageTimestamps := pruneWindow st now ++ [now],
         tokenBuckets := bucketsSet st.tokenBuckets sender
           { tokens := tk', lastRefill := now } }) := by
  have hrb : refillBucket st.tokenBuckets sender now =
      { tokens := tk, lastRefill := now } := by
    rw [refillBucket, hfind]
    dsimp only
    rw [TokenBucket.mk.injEq]
    refine ⟨?_, rfl⟩
    rw [sub_self]
    norm_num [REFILL_RATE]
    exact htk5
  have hcb : checkTokenBucket
        { st with agentMessageTimestamps := pruneWindow st now } sender now =
      ({ allowed := true },
       { agentMessageTimestamps := pruneWindow st now,
         tokenBuckets := bucketsSet st.tokenBuckets sender
           { tokens := tk, lastRefill := now } }) := by
    rw [checkTokenBucket]
    dsimp only
    rw [hrb]
    rw [if_neg (by dsimp only; linarith)]
  rw [checkRateLimit, if_neg (by decide)]
  dsimp only
  rw [if_neg hlen, hcb]
  rw [if_neg (by simp)]
  dsimp only
  simp only [List.filter_nil, List.length_nil, lt_self_iff_false, false_and,
    if_false]
  rw [consumeToken]
  dsimp only
  rw [bucketsFind_bucketsSet_self]
  dsimp only
  rw [if_pos h1tk, bucketsSet_bucketsSet, htk']

/-- One admission attempt by an agent whose bucket was last refilled at the
same instant `now` with `tk < 1` tokens: rejected by the bucket check. -/
theorem checkRateLimit_sameTime_reject (st : RateLimiterState)
    (sender : String) (now : Int) (tk : ℚ)
    (hfind : bucketsFind st.tokenBuckets sender =
      some { tokens := tk, lastRefill := now })
    (htk5 : tk ≤ BUCKET_CAPACITY) (h1tk : tk < 1)
    (hlen : ¬ 15 ≤ (pruneWindow st now).length) :
    (checkRateLimit st sender "agent" [] now).1.allowed = false := by
  have hrb : refillBucket st.tokenBuckets sender now =
      { tokens := tk, lastRefill := now } := by
    rw [refillBucket, hfind]
    dsimp only
    rw [TokenBucket.mk.injEq]
    refine ⟨?_, rfl⟩
    rw [sub_self]
    norm_num [REFILL_RATE]
    exact htk5
  have hcb : checkTokenBucket
        { st with agentMessageTimestamps := pruneWindow st now } sender now =
      ({ allowed := false, reason := some "Per-agent rate limit exceeded",
         retryAfter := some ⌈(1 - tk) / REFILL_RATE * 1000⌉ },
       { agentMessageTimestamps := pruneWindow st now,
         tokenBuckets := bucketsSet st.tokenBuckets sender
           { tokens := tk, lastRefill := now } }) := by
    rw [checkTokenBucket]
    dsimp only
    rw [hrb]
    rw [if_pos (by dsimp only; exact h1tk)]
  rw [checkRateLimit, if_neg (by decide)]
  dsimp only
  rw [if_neg hlen, hcb]
  rfl

/-! ### Concrete runs for the rate-limiter witnesses -/

/-- States of the spec scenario: after `k` of 15 distinct agents have
each sent once at time 0. -/
def c1S0 : RateLimiterState := {}

def c1S1 : RateLimiterState :=
  { agentMessageTimestamps := [0],
    tokenBuckets := [("a0", { tokens := 4, lastRefill := 0 })] }

def c1S2 : RateLimiterState :=
  { agentMessageTimestamps := [0, 0],
    tokenBuckets := [("a0", { tokens := 4, lastRefill := 0 }), ("a1", { tokens := 4, lastRefill := 0 })] }

def c1S3 : RateLimiterState :=
  { agentMessageTimestamps := [0, 0, 0],
    tokenBuckets := [("a0", { tokens := 4, lastRefill := 0 }), ("a1", { tokens := 4, lastRefill := 0 }), ("a2", { tokens := 4, lastRefill := 0 })] }

def c1S4 : RateLimiterState :=
  { agentMessageTimestamps := [0, 0, 0, 0],
    tokenBuckets := [("a0", { tokens := 4, lastRefill := 0 }), ("a1", { tokens := 4, lastRefill := 0 }), ("a2", { tokens := 4, lastRefill := 0 }), ("a3", { tokens := 4, lastRefill := 0 })] }

def c1S5 : RateLimiterState :=
  { agentMessageTimestamps := [0, 0, 0, 0, 0],
    tokenBuckets := [("a0", { tokens := 4, lastRefill := 0 }), ("a1", { tokens := 4, lastRefill := 0 }), ("a2", { tokens := 4, lastRefill := 0 }), ("a3", { tokens := 4, lastRefill := 0 }), ("a4", { tokens := 4, lastRefill := 0 })] }

def c1S6 : RateLimiterState :=
  { agentMessageTimestamps := [0, 0, 0, 0, 0, 0],
    tokenBuckets := [("a0", { tokens := 4, lastRefill := 0 }), ("a1", { tokens := 4, lastRefill := 0 }), ("a2", { tokens := 4, lastRefill := 0 }), ("a3", { tokens := 4, lastRefill := 0 }), ("a4", { tokens := 4, lastRefill := 0 }), ("a5", { tokens := 4, lastRefill := 0 })] }

def c1S7 : RateLimiterState :=
  { agentMessageTimestamps := [0, 0, 0, 0, 0, 0, 0],
    tokenBuckets := [("a0", { tokens := 4, lastRefill := 0 }), ("a1", { tokens := 4, lastRefill := 0 }), ("a2", { tokens := 4, lastRefill := 0 }), ("a3", { tokens := 4, lastRefill := 0 }), ("a4", { tokens := 4, lastRefill := 0 }), ("a5", { tokens := 4, lastRefill := 0 }), ("a6", { tokens := 4, lastRefill := 0 })] }

def c1S8 : RateLimiterState :=
  { agentMessageTimestamps := [0, 0, 0, 0, 0, 0, 0, 0],
    tokenBuckets := [("a0", { tokens := 4, lastRefill := 0 }), ("a1", { tokens := 4, lastRefill := 0 }), ("a2", { tokens := 4, lastRefill := 0 }), ("a3", { tokens := 4, lastRefill := 0 }), ("a4", { tokens := 4, lastRefill := 0 }), ("a5", { tokens := 4, lastRefill := 0 }), ("a6", { tokens := 4, lastRefill := 0 }), ("a7", { tokens := 4, lastRefill := 0 })] }

def c1S9 : RateLimiterState :=
  { agentMessageTimestamps := [0, 0, 0, 0, 0, 0, 0, 0, 0],
    tokenBuckets := [("a0", { tokens := 4, lastRefill := 0 }), ("a1", { tokens := 4, lastRefill := 0 }), ("a2", { tokens := 4, lastRefill := 0 }), ("a3", { tokens := 4, lastRefill := 0 }), ("a4", { tokens := 4, lastRefill := 0 }), ("a5", { tokens := 4, lastRefill := 0 }), ("a6", { tokens := 4, lastRefill := 0 }), ("a7", { tokens := 4, lastRefill := 0 }), ("a8", { tokens := 4, lastRefill := 0 })] }

def c1S10 : RateLimiterState :=
  { agentMessageTimestamps := [0, 0, 0, 0, 0, 0, 0, 0, 0, 0],
    tokenBuckets := [("a0", { tokens := 4, lastRefill := 0 }), ("a1", { tokens := 4, lastRefill := 0 }), ("a2", { tokens := 4, lastRefill := 0 }), ("a3", { tokens := 4, lastRefill := 0 }), ("a4", { tokens := 4, lastRefill := 0 }), ("a5", { tokens := 4, lastRefill := 0 }), ("a6", { tokens := 4, lastRefill := 0 }), ("a7", { tokens := 4, lastRefill := 0 }), ("a8", { tokens := 4, lastRefill := 0 }), ("a9", { tokens := 4, lastRefill := 0 })] }

def c1S11 : RateLimiterState :=
  { agentMessageTimestamps := [0, 0, 0, 0, 0, 0, 0, 0, 0, 0, 0],
    tokenBuckets := [("a0", { tokens := 4, lastRefill := 0 }), ("a1", { tokens := 4, lastRefill := 0 }), ("a2", { tokens := 4, lastRefill := 0 }), ("a3", { tokens := 4, lastRefill := 0 }), ("a4", { tokens := 4, lastRefill := 0 }), ("a5", { tokens := 4, lastRefill := 0 }), ("a6", { tokens := 4, lastRefill := 0 }), ("a7", { tokens := 4, lastRefill := 0 }), ("a8", { tokens := 4, lastRefill := 0 }), ("a9", { tokens := 4, lastRefill := 0 }), ("a10", { tokens := 4, lastRefill := 0 })] }

def c1S12 : RateLimiterState :=
  { agentMessageTimestamps := [0, 0, 0, 0, 0, 0, 0, 0, 0, 0, 0, 0],
    tokenBuckets := [("a0", { tokens := 4, lastRefill := 0 }), ("a1", { tokens := 4, lastRefill := 0 }), ("a2", { tokens := 4, lastRefill := 0 }), ("a3", { tokens := 4, lastRefill := 0 }), ("a4", { tokens := 4, lastRefill := 0 }), ("a5", { tokens := 4, lastRefill := 0 }), ("a6", { tokens := 4, lastRefill := 0 }), ("a7", { tokens := 4, lastRefill := 0 }), ("a8", { tokens := 4, lastRefill := 0 }), ("a9", { tokens := 4, lastRefill := 0 }), ("a10", { tokens := 4, lastRefill := 0 }), ("a11", { tokens := 4, lastRefill := 0 })] }

def c1S13 : RateLimiterState :=
  { agentMessageTimestamps := [0, 0, 0, 0, 0, 0, 0, 0, 0, 0, 0, 0, 0],
    tokenBuckets := [("a0", { tokens := 4, lastRefill := 0 }), ("a1", { tokens := 4, lastRefill := 0 }), ("a2", { tokens := 4, lastRefill := 0 }), ("a3", { tokens := 4, lastRefill := 0 }), ("a4", { tokens := 4, lastRefill := 0 }), ("a5", { tokens := 4, lastRefill := 0 }), ("a6", { tokens := 4, lastRefill := 0 }), ("a7", { tokens := 4, lastRefill := 0 }), ("a8", { tokens := 4, lastRefill := 0 }), ("a9", { tokens := 4, lastRefill := 0 }), ("a10", { tokens := 4, lastRefill := 0 }), ("a11", { tokens := 4, lastRefill := 0 }), ("a12", { tokens := 4, lastRefill := 0 })] }

def c1S14 : RateLimiterState :=
  { agentMessageTimestamps := [0, 0, 0, 0, 0, 0, 0, 0, 0, 0, 0, 0, 0, 0],
    tokenBuckets := [("a0", { tokens := 4, lastRefill := 0 }), ("a1", { tokens := 4, lastRefill := 0 }), ("a2", { tokens := 4, lastRefill := 0 }), ("a3", { tokens := 4, lastRefill := 0 }), ("a4", { tokens := 4, lastRefill := 0 }), ("a5", { tokens := 4, lastRefill := 0 }), ("a6", { tokens := 4, lastRefill := 0 }), ("a7", { tokens := 4, lastRefill := 0 }), ("a8", { tokens := 4, lastRefill := 0 }), ("a9", { tokens := 4, lastRefill := 0 }), ("a10", { tokens := 4, lastRefill := 0 }), ("a11", { tokens := 4, lastRefill := 0 }), ("a12", { tokens := 4, lastRefill := 0 }), ("a13", { tokens := 4, lastRefill := 0 })] }

def c1S15 : RateLimiterState :=
  { agentMessageTimestamps := [0, 0, 0, 0, 0, 0, 0, 0, 0, 0, 0, 0, 0, 0, 0],
    tokenBuckets := [("a0", { tokens := 4, lastRefill := 0 }), ("a1", { tokens := 4, lastRefill := 0 }), ("a2", { tokens := 4, lastRefill := 0 }), ("a3", { tokens := 4, lastRefill := 0 }), ("a4", { tokens := 4, lastRefill := 0 }), ("a5", { tokens := 4, lastRefill := 0 }), ("a6", { tokens := 4, lastRefill := 0 }), ("a7", { tokens := 4, lastRefill := 0 }), ("a8", { tokens := 4, lastRefill := 0 }), ("a9", { tokens := 4, lastRefill := 0 }), ("a10", { tokens := 4, lastRefill := 0 }), ("a11", { tokens := 4, lastRefill := 0 }), ("a12", { tokens := 4, lastRefill := 0 }), ("a13", { tokens := 4, lastRefill := 0 }), ("a14", { tokens := 4, lastRefill := 0 })] }

theorem c1S15_reachable : Reachable 0 c1S15 := by
  have h0 : Reachable 0 c1S0 := Reachable.init 0
  have h1 : Reachable 0 c1S1 := by
    have hs := Reachable.step "a0" "agent" [] h0 (le_refl 0)
    rw [checkRateLimit_freshSend c1S0 "a0" 0 rfl (by decide)] at hs
    exact hs
  have h2 : Reachable 0 c1S2 := by
    have hs := Reachable.step "a1" "agent" [] h1 (le_refl 0)
    rw [checkRateLimit_freshSend c1S1 "a1" 0 rfl (by decide)] at hs
    exact hs
  have h3 : Reachable 0 c1S3 := by
    have hs := Reachable.step "a2" "agent" [] h2 (le_refl 0)
    rw [checkRateLimit_freshSend c1S2 "a2" 0 rfl (by decide)] at hs
    exact hs
  have h4 : Reachable 0 c1S4 := by
    have hs := Reachable.step "a3" "agent" [] h3 (le_refl 0)
    rw [checkRateLimit_freshSend c1S3 "a3" 0 rfl (by decide)] at hs
    exact hs
  have h5 : Reachable 0 c1S5 := by
    have hs := Reachable.step "a4" "agent" [] h4 (le_refl 0)
    rw [checkRateLimit_freshSend c1S4 "a4" 0 rfl (by decide)] at hs
    exact hs
  have h6 : Reachable 0 c1S6 := by
    have hs := Reachable.step "a5" "agent" [] h5 (le_refl 0)
    rw [checkRateLimit_freshSend c1S5 "a5" 0 rfl (by decide)] at hs
    exact hs
  have h7 : Reachable 0 c1S7 := by
    have hs := Reachable.step "a6" "agent" [] h6 (le_refl 0)
    rw [checkRateLimit_freshSend c1S6 "a6" 0 rfl (by decide)] at hs
    exact hs
  have h8 : Reachable 0 c1S8 := by
    have hs := Reachable.step "a7" "agent" [] h7 (le_refl 0)
    rw [checkRateLimit_freshSend c1S7 "a7" 0 rfl (by decide)] at hs
    exact hs
  have h9 : Reachable 0 c1S9 := by
    have hs := Reachable.step "a8" "agent" [] h8 (le_refl 0)
    rw [checkRateLimit_freshSend c1S8 "a8" 0 rfl (by decide)] at hs
    exact hs
  have h10 : Reachable 0 c1S10 := by
    have hs := Reachable.step "a9" "agent" [] h9 (le_refl 0)
    rw [checkRateLimit_freshSend c1S9 "a9" 0 rfl (by decide)] at hs
    exact hs
  have h11 : Reachable 0 c1S11 := by
    have hs := Reachable.step "a10" "agent" [] h10 (le_refl 0)
    rw [checkRateLimit_freshSend c1S10 "a10" 0 rfl (by decide)] at hs
    exact hs
  have h12 : Reachable 0 c1S12 := by
    have hs := Reachable.step "a11" "agent" [] h11 (le_refl 0)
    rw [checkRateLimit_freshSend c1S11 "a11" 0 rfl (by decide)] at hs
    exact hs
  have h13 : Reachable 0 c1S13 := by
    have hs := Reachable.step "a12" "agent" [] h12 (le_refl 0)
    rw [checkRateLimit_freshSend c1S12 "a12" 0 rfl (by decide)] at hs
    exact hs
  have h14 : Reachable 0 c1S14 := by
    have hs := Reachable.step "a13" "agent" [] h13 (le_refl 0)
    rw [checkRateLimit_freshSend c1S13 "a13" 0 rfl (by decide)] at hs
    exact hs
  have h15 : Reachable 0 c1S15 := by
    have hs := Reachable.step "a14" "agent" [] h14 (le_refl 0)
    rw [checkRateLimit_freshSend c1S14 "a14" 0 rfl (by decide)] at hs
    exact hs
  exact h15

/-- Witness for C1: with 15 admissions in the window, the count is at the
cap and the 16th agent admission at the same instant is rejected with
`retryAfter = 60000`. -/
theorem claim_C1_sliding_window_witness :
    (pruneWindow c1S15 0).length ≤ 15 ∧
    (checkRateLimit c1S15 "b" "agent" [] 0).1 =
      { allowed := false,
        reason := some "Global agent rate limit exceeded (15/min)",
        retryAfter := some 60000 } := by
  have h := claim_C1_sliding_window c1S15_reachable (le_refl 0)
    "b" "agent" []
  refine ⟨h.1, ?_⟩
  obtain ⟨oldest, hhead, _, hres⟩ := h.2 (by decide) (by decide)
  have hh0 : (pruneWindow c1S15 0).head? = some 0 := rfl
  rw [hh0] at hhead
  have holdest : oldest = 0 := (Option.some.injEq _ _).mp hhead.symm
  have h60 : (60000 : Int) - (0 - 0) = 60000 := by decide
  rw [hres, holdest, h60]

/-- State after one admission by agent `"a"` at time 0: its bucket holds
4 tokens, last refilled at 0. -/
def c2State : RateLimiterState :=
  { agentMessageTimestamps := [0],
    tokenBuckets := [("a", { tokens := 4, lastRefill := 0 })] }

theorem c2State_reachable : Reachable 0 c2State := by
  have h0 : Reachable 0 ({} : RateLimiterState) := Reachable.init 0
  have hs := Reachable.step "a" "agent" [] h0 (le_refl 0)
  rw [checkRateLimit_freshSend {} "a" 0 rfl (by decide)] at hs
  exact hs

/-- Witness for C2: 5 s after the last refill the next check finds the
bucket back at full capacity and admits. -/
theorem claim_C2_token_bucket_witness :
    (checkTokenBucket c2State "a" 5000).1.allowed = true ∧
    (bucketsFind (checkTokenBucket c2State "a" 5000).2.tokenBuckets "a").map
        TokenBucket.tokens = some BUCKET_CAPACITY := by
  obtain ⟨b', hfind, htok, hallow⟩ :=
    (claim_C2_token_bucket c2State_reachable).2 "a" ⟨4, 0⟩ 5000 rfl
      (by decide) (by decide)
  exact ⟨hallow, by rw [hfind, Option.map_some', htok]⟩

/-- States after `k` sends by the single agent `"a"` at time 0; the 5th
leaves its bucket empty. -/
def c10S1 : RateLimiterState :=
  { agentMessageTimestamps := [0],
    tokenBuckets := [("a", { tokens := 4, lastRefill := 0 })] }

def c10S2 : RateLimiterState :=
  { agentMessageTimestamps := [0, 0],
    tokenBuckets := [("a", { tokens := 3, lastRefill := 0 })] }

def c10S3 : RateLimiterState :=
  { agentMessageTimestamps := [0, 0, 0],
    tokenBuckets := [("a", { tokens := 2, lastRefill := 0 })] }

def c10S4 : RateLimiterState :=
  { agentMessageTimestamps := [0, 0, 0, 0],
    tokenBuckets := [("a", { tokens := 1, lastRefill := 0 })] }

def c10S5 : RateLimiterState :=
  { agentMessageTimestamps := [0, 0, 0, 0, 0],
    tokenBuckets := [("a", { tokens := 0, lastRefill := 0 })] }

theorem c10S5_reachable : Reachable 0 c10S5 := by
  have h0 : Reachable 0 ({} : RateLimiterState) := Reachable.init 0
  have h1 : Reachable 0 c10S1 := by
    have hs := Reachable.step "a" "agent" [] h0 (le_refl 0)
    rw [checkRateLimit_freshSend {} "a" 0 rfl (by decide)] at hs
    exact hs
  have h2 : Reachable 0 c10S2 := by
    have hs := Reachable.step "a" "agent" [] h1 (le_refl 0)
    rw [checkRateLimit_sameTimeSend c10S1 "a" 0 4 3 rfl
      (by norm_num [BUCKET_CAPACITY]) (by norm_num) (by norm_num)
      (by decide)] at hs
    exact hs
  have h3 : Reachable 0 c10S3 := by
    have hs := Reachable.step "a" "agent" [] h2 (le_refl 0)
    rw [checkRateLimit_sameTimeSend c10S2 "a" 0 3 2 rfl
      (by norm_num [BUCKET_CAPACITY]) (by norm_num) (by norm_num)
      (by decide)] at hs
    exact hs
  have h4 : Reachable 0 c10S4 := by
    have hs := Reachable.step "a" "agent" [] h3 (le_refl 0)
    rw [checkRateLimit_sameTimeSend c10S3 "a" 0 2 1 rfl
      (by norm_num [BUCKET_CAPACITY]) (by norm_num) (by norm_num)
      (by decide)] at hs
    exact hs
  have h5 : Reachable 0 c10S5 := by
    have hs := Reachable.step "a" "agent" [] h4 (le_refl 0)
    rw [checkRateLimit_sameTimeSend c10S4 "a" 0 1 0 rfl
      (by norm_num [BUCKET_CAPACITY]) (by norm_num) (by norm_num)
      (by decide)] at hs
    exact hs
  exact h5

/-- Witness for C10: the 6th same-second send from `"a"` is rejected by
its empty bucket, and another identity's bucket lookup is unchanged. -/
theorem claim_C10_reject_no_charge_witness :
    (checkRateLimit c10S5 "a" "agent" [] 0).1.allowed = false ∧
    bucketsFind (checkRateLimit c10S5 "a" "agent" [] 0).2.tokenBuckets
        "z" = bucketsFind c10S5.tokenBuckets "z" := by
  have hrej : (checkRateLimit c10S5 "a" "agent" [] 0).1.allowed =
      false :=
    checkRateLimit_sameTime_reject c10S5 "a" 0 0 rfl
      (by norm_num [BUCKET_CAPACITY]) (by norm_num) (by decide)
  have h := claim_C10_reject_no_charge c10S5_reachable "a" "agent" []
    (le_refl 0) hrej
  exact ⟨hrej, h.2.2 "z" (by decide)⟩

/-! ## ReplyStrategy backoff (modelled from the spec)

The connector's `strategy.ts` is not part of the source snapshot: only its
unit test and its call sites (`plugin.ts`) appear, so the backoff members
are modelled from the design document (§3 CooldownState, §4.4). -/

/-- `StrategyConfig` as used by the strategy test-suite: agent name, reply
probability, mention bypass, cooldown range in ms. -/
structure StrategyConfig where
  agentName : String
  replyProbability : ℚ
  mentionAlwaysReply : Bool
  cooldownMin : ℚ
  cooldownMax : ℚ
deriving DecidableEq, Repr

/-- Modelled from the spec: the `ReplyStrategy` state of the absent
`strategy.ts` — last-reply timestamp, current cooldown duration, and a
backoff multiplier starting at 1 with a configured ceiling (default 8×). -/
structure ReplyStrategyState where
  config : StrategyConfig
  lastReplyTime : Int := 0
  currentCooldown : ℚ := 0
  backoffMultiplier : Nat := 1
  maxBackoffMultiplier : Nat := 8
deriving DecidableEq, Repr

/-- Modelled from the spec: `RecordRejection()` (the test-suite's
`recordRateLimit`) doubles the backoff multiplier, capped at the configured
ceiling. -/
def recordRejection (s : ReplyStrategyState) : ReplyStrategyState :=
  { s with backoffMultiplier :=
      (min (s.backoffMultiplier * 2) s.maxBackoffMultiplier) }

/-- Modelled from the spec: `ResetBackoff()` sets the multiplier back to 1
after a confirmed successful send. -/
def resetBackoff (s : ReplyStrategyState) : ReplyStrategyState :=
  { s with backoffMultiplier := 1 }

/-- Modelled from the spec: `StartCooldown()` anchors the cooldown at `now`
with a duration drawn uniformly from `[min, max] × backoffMultiplier`; the
random draw `r ∈ [0, 1]` is an injected argument. -/
def startCooldown (s : ReplyStrategyState) (r : ℚ) (now : Int) :
    ReplyStrategyState :=
  { s with
    lastReplyTime := now,
    currentCooldown :=
      ((s.config.cooldownMin + r * (s.config.cooldownMax - s.config.cooldownMin)) *
        (s.backoffMultiplier : ℚ)) }

theorem recordRejection_iterate (s : ReplyStrategyState)
    (hm : s.backoffMultiplier = 1) (hc : s.maxBackoffMultiplier = 8) :
    ∀ n : Nat, (recordRejection^[n] s).backoffMultiplier = min (2 ^ n) 8 ∧
      (recordRejection^[n] s).maxBackoffMultiplier = 8 := by
  intro n
  induction n with
  | zero => simpa using ⟨hm, hc⟩
  | succ k ih =>
    obtain ⟨ihm, ihc⟩ := ih
    rw [Function.iterate_succ_apply', recordRejection]
    refine ⟨?_, ihc⟩
    show min ((recordRejection^[k] s).backoffMultiplier * 2)
        (recordRejection^[k] s).maxBackoffMultiplier = min (2 ^ (k + 1)) 8
    rw [ihm, ihc, pow_succ]
    omega

/-- **C5.** From a fresh strategy, `n` rejection recordings yield multiplier
`min(2^n, 8)`; `resetBackoff` always restores 1; and a cooldown started with
any uniform draw `r ∈ [0, 1]` lies in `[min, max] × multiplier`. -/
theorem claim_C5_backoff (s : ReplyStrategyState)
    (hm : s.backoffMultiplier = 1) (hc : s.maxBackoffMultiplier = 8) :
    (∀ n : Nat, (recordRejection^[n] s).backoffMultiplier = min (2 ^ n) 8) ∧
    (∀ s' : ReplyStrategyState, (resetBackoff s').backoffMultiplier = 1) ∧
    (∀ (s' : ReplyStrategyState) (r : ℚ) (now : Int), 0 ≤ r → r ≤ 1 →
      0 ≤ s'.config.cooldownMin →
      s'.config.cooldownMin ≤ s'.config.cooldownMax →
      s'.config.cooldownMin * (s'.backoffMultiplier : ℚ) ≤
        (startCooldown s' r now).currentCooldown ∧
      (startCooldown s' r now).currentCooldown ≤
        s'.config.cooldownMax * (s'.backoffMultiplier : ℚ)) := by
  refine ⟨fun n => (recordRejection_iterate s hm hc n).1, fun s' => rfl,
    fun s' r now hr0 hr1 hmin0 hminmax => ?_⟩
  have hdraw0 : s'.config.cooldownMin ≤
      s'.config.cooldownMin + r * (s'.config.cooldownMax - s'.config.cooldownMin) := by
    nlinarith
  have hdraw1 : s'.config.cooldownMin + r *
      (s'.config.cooldownMax - s'.config.cooldownMin) ≤ s'.config.cooldownMax := by
    nlinarith
  have hmul : (0 : ℚ) ≤ (s'.backoffMultiplier : ℚ) := by positivity
  rw [startCooldown]
  dsimp only
  constructor
  · exact mul_le_mul_of_nonneg_right hdraw0 hmul
  · exact mul_le_mul_of_nonneg_right hdraw1 hmul

/-- The strategy configuration of the unit tests. -/
def exStrategyConfig : StrategyConfig :=
  { agentName := "TestBot", replyProbability := 9 / 10,
    mentionAlwaysReply := true, cooldownMin := 5000, cooldownMax := 15000 }

def exStrategy : ReplyStrategyState := { config := exStrategyConfig }

/-- Witness for C5: five rejections cap the multiplier at 8, reset restores
1, and a mid-range draw produces a cooldown within `[5000, 15000] × 1`. -/
theorem claim_C5_backoff_witness :
    (recordRejection^[5] exStrategy).backoffMultiplier = min (2 ^ 5) 8 ∧
    (resetBackoff exStrategy).backoffMultiplier = 1 ∧
    exStrategy.config.cooldownMin * (exStrategy.backoffMultiplier : ℚ) ≤
      (startCooldown exStrategy (1 / 2) 100).currentCooldown := by
  have h := claim_C5_backoff exStrategy rfl rfl
  exact ⟨h.1 5, h.2.1 exStrategy,
    (h.2.2 exStrategy (1 / 2) 100 (by norm_num) (by norm_num)
      (by norm_num [exStrategy, exStrategyConfig])
      (by norm_num [exStrategy, exStrategyConfig])).1⟩

end Chatroom
